import Mathlib

/-!
Verification of the compliance subsystem of the efilo backend.

Shallow embedding of `app/services/compliance/*` (holidays, severity,
calculator, deadlines, notices, integrations, scoring), the compliance
cron tasks (`app/tasks/compliance_crons.py`) and the relevant parts of
the HTTP router (`app/routers/compliance.py`).

Conventions of the embedding:
 - Dates are natural numbers counting days from an epoch chosen to be a
   Monday, so `d % 7` is Python's `date.weekday()` (0 = Monday .. 6 = Sunday).
 - Datetimes are natural numbers counting seconds from the same epoch;
   day `d` spans seconds `[86400*d, 86400*(d+1))`, and `23:59:59` of day
   `d` (the `datetime.max.time().replace(microsecond=0)` used by the
   calculator) is `86400*d + 86399`.
 - `datetime.utcnow()` is passed in explicitly as a `now` argument, and
   the project holiday set (`get_all_holidays`, a database query) is
   passed in explicitly as a `Finset Nat` argument.
 - The database session is a record of lists; `flush`/`commit` have no
   observable effect inside one transaction and are dropped.
 - Severity thresholds: the Python code compares the float
   `remaining.total_seconds() / 86400` against the integer thresholds
   3, 7, 14.  For integer second counts below 2^53 the float comparison
   agrees exactly with the rational one, so we compare seconds against
   `3*86400`, `7*86400`, `14*86400` directly.
-/

/-- Enum `DeadlineType`.  Modelled from the spec: the enums module
(`app/models/enums.py`) is not present under `src/`; members are the closed
set named in spec section 3 and used throughout the source. -/
inductive DeadlineType where
  | CALENDAR_DAYS
  | BUSINESS_DAYS
  | HOURS
deriving DecidableEq, Repr

/-- Enum `DeadlineStatus`.  Modelled from the spec: the enums module is not
present under `src/`; members are those of spec section 4.4 and the usage
sites in the source. -/
inductive DeadlineStatus where
  | ACTIVE
  | NOTICE_DRAFTED
  | NOTICE_SENT
  | COMPLETED
  | WAIVED
  | EXPIRED
  | ACKNOWLEDGED
deriving DecidableEq, Repr

/-- Enum `Severity`.  Modelled from the spec: the enums module is not present
under `src/`; members are the closed set of spec section 4.2. -/
inductive Severity where
  | LOW
  | INFO
  | WARNING
  | CRITICAL
  | EXPIRED
deriving DecidableEq, Repr

/-- Enum `ComplianceNoticeStatus`.  Modelled from the spec: the enums module
is not present under `src/`; members from spec section 3 and the source's
usage sites. -/
inductive ComplianceNoticeStatus where
  | DRAFT
  | PENDING_REVIEW
  | SENT
  | ACKNOWLEDGED
deriving DecidableEq, Repr

/-- Enum `TriggerEventType`.  Modelled from the spec: the enums module is not
present under `src/`; members from spec section 3. -/
inductive TriggerEventType where
  | RFI
  | CHANGE_ORDER
  | MANUAL
  | DOCUMENT_RECEIVED
  | OTHER
deriving DecidableEq, Repr

/-- Enum `ContractClauseKind`.  Modelled from the spec: the enums module is
not present under `src/`; members are the closed set listed in
`app/services/compliance/prompts.py`. -/
inductive ContractClauseKind where
  | PAYMENT_TERMS
  | CHANGE_ORDER_PROCESS
  | CLAIMS_PROCEDURE
  | DISPUTE_RESOLUTION
  | NOTICE_REQUIREMENTS
  | RETENTION
  | WARRANTY
  | INSURANCE
  | INDEMNIFICATION
  | TERMINATION
  | FORCE_MAJEURE
  | LIQUIDATED_DAMAGES
  | SCHEDULE
  | SAFETY
  | GENERAL_CONDITIONS
  | SUPPLEMENTARY_CONDITIONS
deriving DecidableEq, Repr

/-- Enum `ComplianceNoticeType`.  Modelled from the spec: the enums module is
not present under `src/`; no compliance-core branch inspects its members, so
a representative closed set is used. -/
inductive ComplianceNoticeType where
  | NOTICE_OF_DELAY
  | NOTICE_OF_CHANGE
  | CLAIM_NOTICE
  | OTHER
deriving DecidableEq, Repr

/-- Enum `UserRole`.  Modelled from the spec: the enums module is not present
under `src/`; the three eligible roles of spec section 4.8 plus a
non-eligible member. -/
inductive UserRole where
  | ADMIN
  | PROJECT_MANAGER
  | EXECUTIVE
  | MEMBER
deriving DecidableEq, Repr

/-- Enum `NotificationSeverity`.  Modelled from the spec: the enums module is
not present under `src/`. -/
inductive NotificationSeverity where
  | CRITICAL
  | WARNING
  | INFO
deriving DecidableEq, Repr

/-- Enum `NotificationChannel`.  Modelled from the spec: the enums module is
not present under `src/`. -/
inductive NotificationChannel where
  | IN_APP
  | EMAIL
deriving DecidableEq, Repr

/-- Enum `NotificationType`.  Modelled from the spec: the enums module is not
present under `src/`. -/
inductive NotificationType where
  | COMPLIANCE_DEADLINE
  | OTHER
deriving DecidableEq, Repr

/-! ## Calendar service (`app/services/compliance/holidays.py`) -/

/-- Seconds in one day. -/
def secondsPerDay : Nat := 86400

/-- The calendar date of a datetime (Python `datetime.date()`). -/
def dateOf (t : Nat) : Nat := t / secondsPerDay

/-- End-of-day datetime `23:59:59` of a date, i.e.
`datetime.combine(d, datetime.max.time().replace(microsecond=0))`. -/
def endOfDay (d : Nat) : Nat := secondsPerDay * d + 86399

/-- `is_business_day`: weekday < Saturday and not a holiday. -/
def is_business_day (d : Nat) (holidays : Finset Nat) : Bool :=
  decide (d % 7 < 5 ∧ d ∉ holidays)

/-- There is always a business day strictly after any date: the holiday set
is finite, and each week has five weekdays. -/
theorem exists_business_day_after (holidays : Finset Nat) (d : Nat) :
    ∃ n : Nat, is_business_day (d + 1 + n) holidays = true := by
  classical
  set B : Nat := max (d + 1) (holidays.sup id + 1) with hB
  refine ⟨B + (7 - B % 7) % 7 - (d + 1), ?_⟩
  have hBd : d + 1 ≤ B := le_max_left _ _
  have hBH : holidays.sup id + 1 ≤ B := le_max_right _ _
  have harith : d + 1 + (B + (7 - B % 7) % 7 - (d + 1)) = B + (7 - B % 7) % 7 := by
    omega
  rw [harith]
  have hmod : (B + (7 - B % 7) % 7) % 7 = 0 := by omega
  have hge : holidays.sup id < B + (7 - B % 7) % 7 := by omega
  have hnotmem : B + (7 - B % 7) % 7 ∉ holidays := by
    intro hmem
    have := Finset.le_sup (f := id) hmem
    simp only [id] at this
    omega
  simp [is_business_day, hmod, hnotmem]

/-- The first business day strictly after `d`.  The `while` loop of
`add_business_days` steps one day at a time and decrements its counter
exactly on business days, so each unit of the counter advances `current`
to the next business day; `nextBusinessDay` is that single advance. -/
def nextBusinessDay (holidays : Finset Nat) (d : Nat) : Nat :=
  d + 1 + Nat.find (exists_business_day_after holidays d)

theorem nextBusinessDay_gt (holidays : Finset Nat) (d : Nat) :
    d < nextBusinessDay holidays d := by
  unfold nextBusinessDay; omega

theorem nextBusinessDay_business (holidays : Finset Nat) (d : Nat) :
    is_business_day (nextBusinessDay holidays d) holidays = true :=
  Nat.find_spec (exists_business_day_after holidays d)

theorem nextBusinessDay_min (holidays : Finset Nat) (d e : Nat)
    (h1 : d < e) (h2 : e < nextBusinessDay holidays d) :
    is_business_day e holidays = false := by
  have hlt : e - (d + 1) < Nat.find (exists_business_day_after holidays d) := by
    unfold nextBusinessDay at h2; omega
  have := Nat.find_min (exists_business_day_after holidays d) hlt
  have he : d + 1 + (e - (d + 1)) = e := by omega
  rw [he] at this
  simpa using this

/-- Iterated advance to the next business day; `n` is the number of business
days still to elapse (the loop's `remaining`). -/
def addBusinessDaysAux (holidays : Finset Nat) : Nat → Nat → Nat
  | current, 0 => current
  | current, n + 1 => addBusinessDaysAux holidays (nextBusinessDay holidays current) n

/-- `add_business_days(start, days, holidays)`: iterate forward from `start`,
counting only business days, until `days` have elapsed.  For `days ≤ 0` the
`while remaining > 0` loop does not run and `start` is returned unchanged
(`Int.toNat` of a non-positive count is `0`). -/
def add_business_days (start : Nat) (days : Int) (holidays : Finset Nat) : Nat :=
  addBusinessDaysAux holidays start days.toNat

/-- `add_calendar_days(start, days)`: plain date addition.  Negative `days`
before the epoch saturates at the epoch (no claim exercises that corner). -/
def add_calendar_days (start : Nat) (days : Int) : Nat :=
  ((start : Int) + days).toNat

/-- `add_hours(start, hours)`: plain datetime addition, no weekend or holiday
adjustment.  Negative results before the epoch saturate at the epoch. -/
def add_hours (start : Nat) (hours : Int) : Nat :=
  ((start : Int) + hours * 3600).toNat

/-- `count_business_days_between(start, end, holidays)`: count business days
in the interval `(start, end]`, exclusive of `start`, inclusive of `end`. -/
def count_business_days_between (start e : Nat) (holidays : Finset Nat) : Nat :=
  if start < e then
    (if is_business_day (start + 1) holidays then 1 else 0) +
      count_business_days_between (start + 1) e holidays
  else 0
termination_by e - start
decreasing_by omega

theorem count_business_days_between_self (start : Nat) (holidays : Finset Nat) :
    count_business_days_between start start holidays = 0 := by
  rw [count_business_days_between]; simp

theorem count_business_days_between_of_le (start e : Nat) (holidays : Finset Nat)
    (h : e ≤ start) : count_business_days_between start e holidays = 0 := by
  rw [count_business_days_between]
  simp [Nat.not_lt.mpr h]

theorem count_business_days_between_step (start e : Nat) (holidays : Finset Nat)
    (h : start < e) :
    count_business_days_between start e holidays =
      (if is_business_day (start + 1) holidays then 1 else 0) +
        count_business_days_between (start + 1) e holidays := by
  conv_lhs => rw [count_business_days_between]
  simp [h]

/-- Splitting the business-day count at an intermediate date. -/
theorem count_business_days_between_split (holidays : Finset Nat) :
    ∀ k start m e, m - start = k → start ≤ m → m ≤ e →
      count_business_days_between start e holidays =
        count_business_days_between start m holidays +
          count_business_days_between m e holidays := by
  intro k
  induction k with
  | zero =>
    intro start m e hk h1 h2
    have : start = m := by omega
    subst this
    rw [count_business_days_between_self]
    omega
  | succ n ih =>
    intro start m e hk h1 h2
    have hlt : start < m := by omega
    have hlt2 : start < e := by omega
    rw [count_business_days_between_step start e holidays hlt2,
        count_business_days_between_step start m holidays hlt,
        ih (start + 1) m e (by omega) (by omega) h2]
    omega

/-- The interval from a date to its next business day contains exactly one
business day (the endpoint). -/
theorem count_to_nextBusinessDay (holidays : Finset Nat) (d : Nat) :
    count_business_days_between d (nextBusinessDay holidays d) holidays = 1 := by
  have key : ∀ k m, d ≤ m → m < nextBusinessDay holidays d →
      nextBusinessDay holidays d - m = k →
      count_business_days_between m (nextBusinessDay holidays d) holidays = 1 := by
    intro k
    induction k with
    | zero => intro m _ h2 hk; omega
    | succ n ih =>
      intro m h1 h2 hk
      rw [count_business_days_between_step m _ holidays h2]
      by_cases hend : m + 1 = nextBusinessDay holidays d
      · rw [hend, count_business_days_between_self,
            nextBusinessDay_business holidays d]
        simp
      · have hlt : m + 1 < nextBusinessDay holidays d := by omega
        have hnotb : is_business_day (m + 1) holidays = false :=
          nextBusinessDay_min holidays d (m + 1) (by omega) hlt
        rw [hnotb, ih (m + 1) (by omega) hlt (by omega)]
        simp
  exact key (nextBusinessDay holidays d - d) d (le_refl d)
    (nextBusinessDay_gt holidays d) rfl

theorem addBusinessDaysAux_le (holidays : Finset Nat) :
    ∀ n current, current ≤ addBusinessDaysAux holidays current n := by
  intro n
  induction n with
  | zero => intro current; rfl
  | succ m ih =>
    intro current
    have h1 : current < nextBusinessDay holidays current := nextBusinessDay_gt _ _
    have h2 := ih (nextBusinessDay holidays current)
    calc current ≤ nextBusinessDay holidays current := le_of_lt h1
      _ ≤ addBusinessDaysAux holidays (nextBusinessDay holidays current) m := h2
      _ = addBusinessDaysAux holidays current (m + 1) := rfl

/-- Counting the business days from `start` (exclusive) to
`addBusinessDaysAux holidays start k` (inclusive) yields exactly `k`. -/
theorem count_addBusinessDaysAux (holidays : Finset Nat) :
    ∀ k start,
      count_business_days_between start (addBusinessDaysAux holidays start k) holidays = k := by
  intro k
  induction k with
  | zero =>
    intro start
    exact count_business_days_between_self start holidays
  | succ n ih =>
    intro start
    have hstep : addBusinessDaysAux holidays start (n + 1) =
        addBusinessDaysAux holidays (nextBusinessDay holidays start) n := rfl
    rw [hstep]
    have h1 : start < nextBusinessDay holidays start := nextBusinessDay_gt holidays start
    have h2 : nextBusinessDay holidays start ≤
        addBusinessDaysAux holidays (nextBusinessDay holidays start) n :=
      addBusinessDaysAux_le holidays n _
    rw [count_business_days_between_split holidays
      (nextBusinessDay holidays start - start) start (nextBusinessDay holidays start)
      (addBusinessDaysAux holidays (nextBusinessDay holidays start) n) rfl
      (le_of_lt h1) h2]
    rw [count_to_nextBusinessDay holidays start, ih (nextBusinessDay holidays start)]
    omega

/-! ## Severity classifier (`app/services/compliance/severity.py`) -/

/-- Threshold in days. -/
def CRITICAL_THRESHOLD_DAYS : Nat := 3

/-- Threshold in days. -/
def WARNING_THRESHOLD_DAYS : Nat := 7

/-- Threshold in days. -/
def INFO_THRESHOLD_DAYS : Nat := 14

/-- `classify_severity(deadline, now, status)`.  The Python `now=None`
default resolves to `datetime.utcnow()`; the caller's clock is passed
explicitly here.  The float comparison `remaining.total_seconds() / 86400
<= k` agrees exactly with `seconds ≤ k * 86400` for the integer second
counts involved. -/
def classify_severity (deadline : Nat) (now : Nat)
    (status : Option DeadlineStatus) : Severity :=
  if status = some DeadlineStatus.COMPLETED ∨ status = some DeadlineStatus.WAIVED ∨
      status = some DeadlineStatus.NOTICE_SENT then
    Severity.LOW
  else if deadline ≤ now then
    Severity.EXPIRED
  else
    let remaining := deadline - now
    if remaining ≤ CRITICAL_THRESHOLD_DAYS * secondsPerDay then Severity.CRITICAL
    else if remaining ≤ WARNING_THRESHOLD_DAYS * secondsPerDay then Severity.WARNING
    else if remaining ≤ INFO_THRESHOLD_DAYS * secondsPerDay then Severity.INFO
    else Severity.LOW

/-- `severity_changed`. -/
def severity_changed (old new : Severity) : Bool := old ≠ new

/-- The urgency order used by `severity_escalated`. -/
def severityOrder : Severity → Nat
  | Severity.LOW => 0
  | Severity.INFO => 1
  | Severity.WARNING => 2
  | Severity.CRITICAL => 3
  | Severity.EXPIRED => 4

/-- `severity_escalated`. -/
def severity_escalated (old new : Severity) : Bool :=
  severityOrder old < severityOrder new

/-! ## String forms of the enums (Python `.value`) -/

/-- String value of a `Severity` member. -/
def Severity.value : Severity → String
  | Severity.LOW => "LOW"
  | Severity.INFO => "INFO"
  | Severity.WARNING => "WARNING"
  | Severity.CRITICAL => "CRITICAL"
  | Severity.EXPIRED => "EXPIRED"

/-- String value of a `DeadlineStatus` member. -/
def DeadlineStatus.value : DeadlineStatus → String
  | DeadlineStatus.ACTIVE => "ACTIVE"
  | DeadlineStatus.NOTICE_DRAFTED => "NOTICE_DRAFTED"
  | DeadlineStatus.NOTICE_SENT => "NOTICE_SENT"
  | DeadlineStatus.COMPLETED => "COMPLETED"
  | DeadlineStatus.WAIVED => "WAIVED"
  | DeadlineStatus.EXPIRED => "EXPIRED"
  | DeadlineStatus.ACKNOWLEDGED => "ACKNOWLEDGED"

/-- String value of a `ComplianceNoticeStatus` member. -/
def ComplianceNoticeStatus.value : ComplianceNoticeStatus → String
  | ComplianceNoticeStatus.DRAFT => "DRAFT"
  | ComplianceNoticeStatus.PENDING_REVIEW => "PENDING_REVIEW"
  | ComplianceNoticeStatus.SENT => "SENT"
  | ComplianceNoticeStatus.ACKNOWLEDGED => "ACKNOWLEDGED"

/-- String value of a `TriggerEventType` member. -/
def TriggerEventType.value : TriggerEventType → String
  | TriggerEventType.RFI => "RFI"
  | TriggerEventType.CHANGE_ORDER => "CHANGE_ORDER"
  | TriggerEventType.MANUAL => "MANUAL"
  | TriggerEventType.DOCUMENT_RECEIVED => "DOCUMENT_RECEIVED"
  | TriggerEventType.OTHER => "OTHER"

/-- String value of a `DeadlineType` member. -/
def DeadlineType.value : DeadlineType → String
  | DeadlineType.CALENDAR_DAYS => "CALENDAR_DAYS"
  | DeadlineType.BUSINESS_DAYS => "BUSINESS_DAYS"
  | DeadlineType.HOURS => "HOURS"

/-- String value of a `ComplianceNoticeType` member. -/
def ComplianceNoticeType.value : ComplianceNoticeType → String
  | ComplianceNoticeType.NOTICE_OF_DELAY => "NOTICE_OF_DELAY"
  | ComplianceNoticeType.NOTICE_OF_CHANGE => "NOTICE_OF_CHANGE"
  | ComplianceNoticeType.CLAIM_NOTICE => "CLAIM_NOTICE"
  | ComplianceNoticeType.OTHER => "OTHER"

/-! ## Data model (`app/models/compliance.py`, `app/models/notification.py`,
`app/models/user.py`).  Ids are opaque collision-resistant strings in the
source (`generate_cuid`); they are modelled as naturals handed out by a
fresh-id counter on the session. -/

/-- Row of `ContractClause` (the fields the compliance core reads). -/
structure ContractClause where
  id : Nat
  project_id : Nat
  kind : ContractClauseKind
  title : String
  content : String
  section_ref : Option String
  deadline_days : Option Int
  deadline_type : Option DeadlineType
  cure_period_days : Option Int
  cure_period_type : Option DeadlineType
  confirmed : Bool
  requires_review : Bool
  ai_extracted : Bool
  source_doc_id : Option Nat
deriving DecidableEq, Repr

/-- Row of `ComplianceDeadline`. -/
structure ComplianceDeadline where
  id : Nat
  project_id : Nat
  clause_id : Nat
  trigger_event_type : TriggerEventType
  trigger_event_id : Option Nat
  trigger_description : String
  triggered_at : Nat
  triggered_by : Option Nat
  calculated_deadline : Nat
  status : DeadlineStatus
  severity : Severity
  notice_id : Option Nat
  notice_created_at : Option Nat
  waived_at : Option Nat
  waived_by : Option Nat
  waiver_reason : Option String
deriving DecidableEq, Repr

/-- Row of `ComplianceNotice`.  `delivery_confirmation` is a JSONB dict
keyed by canonical method name; it is modelled as an association list from
key to the `deliveredAt` timestamp of the entry (no claim inspects the
other entry fields). -/
structure ComplianceNotice where
  id : Nat
  project_id : Nat
  type : ComplianceNoticeType
  status : ComplianceNoticeStatus
  title : String
  content : String
  recipient_name : Option String
  recipient_email : Option String
  due_date : Option Nat
  sent_at : Option Nat
  acknowledged_at : Option Nat
  clause_id : Option Nat
  delivery_methods : List String
  delivery_confirmation : List (String × Nat)
  delivered_at : Option Nat
  on_time_status : Option Bool
  generated_by_ai : Bool
  ai_model : Option String
  created_by_id : Nat
deriving DecidableEq, Repr

/-- Row of `ComplianceAuditLog` (append-only).  `details` is a structured
JSON blob; it is modelled as an association list of stringified values. -/
structure ComplianceAuditLog where
  project_id : Nat
  event_type : String
  entity_type : String
  entity_id : Nat
  user_id : Option Nat
  actor_type : String
  action : String
  details : List (String × String)
deriving DecidableEq, Repr

/-- Row of `Notification` (the fields the severity cron writes). -/
structure Notification where
  user_id : Nat
  type : NotificationType
  severity : NotificationSeverity
  channel : NotificationChannel
  title : String
  message : String
  project_id : Nat
  entity_id : Nat
  entity_type : String
deriving DecidableEq, Repr

/-- Row of `User` (the fields the compliance core reads). -/
structure User where
  id : Nat
  role : UserRole
  email : String
  name : String
deriving DecidableEq, Repr

/-- Row of `ComplianceScore`.  Monetary values are exact multiples of
50,000 and are modelled as naturals. -/
structure ComplianceScore where
  project_id : Nat
  score : Nat
  details : List (String × String)
  current_streak : Nat
  best_streak : Nat
  streak_broken_at : Option Nat
  protected_claims_value : Nat
  at_risk_value : Nat
  on_time_count : Nat
  total_count : Nat
  missed_count : Nat
  at_risk_count : Nat
  active_count : Nat
  upcoming_count : Nat
  last_calculated_at : Nat
  calculated_at : Nat
deriving DecidableEq, Repr

/-- The database session: the tables the compliance core touches, plus a
fresh-id counter standing in for `generate_cuid`. -/
structure DB where
  clauses : List ContractClause
  deadlines : List ComplianceDeadline
  notices : List ComplianceNotice
  audit_log : List ComplianceAuditLog
  notifications : List Notification
  users : List User
  next_id : Nat
deriving DecidableEq, Repr

/-- Replace the deadline with the given id (ORM in-place mutation of a
loaded row). -/
def DB.setDeadline (db : DB) (d : ComplianceDeadline) : DB :=
  { db with deadlines := db.deadlines.map (fun x => if x.id = d.id then d else x) }

/-- Replace the notice with the given id. -/
def DB.setNotice (db : DB) (n : ComplianceNotice) : DB :=
  { db with notices := db.notices.map (fun x => if x.id = n.id then n else x) }

/-- Python truthiness of an optional integer column (`None` and `0` are
falsy). -/
def truthyInt : Option Int → Bool
  | none => false
  | some k => k ≠ 0

/-- Python truthiness of an optional string column (`None` and `""` are
falsy). -/
def truthyStr : Option String → Bool
  | none => false
  | some s => s ≠ ""

/-! ## Deadline date calculator (`app/services/compliance/calculator.py`) -/

/-- Result dict of `calculate_deadline`. -/
structure CalcResult where
  calculatedDeadline : Nat
  severity : Severity
  cureDeadline : Option Nat
deriving DecidableEq, Repr

/-- `calculate_deadline`.  `holidays` is the set returned by
`get_all_holidays(db, project_id, start_date=trigger_date.date())` at
creation time; `now` is the clock `classify_severity` reads via its
`now=None` default. -/
def calculate_deadline (holidays : Finset Nat) (trigger_date : Nat)
    (deadline_days : Int) (deadline_type : DeadlineType)
    (cure_period_days : Option Int) (cure_period_type : Option DeadlineType)
    (now : Nat) : CalcResult :=
  let trigger_as_date := dateOf trigger_date
  let calculated_deadline :=
    match deadline_type with
    | DeadlineType.BUSINESS_DAYS =>
        endOfDay (add_business_days trigger_as_date deadline_days holidays)
    | DeadlineType.HOURS => add_hours trigger_date deadline_days
    | DeadlineType.CALENDAR_DAYS =>
        endOfDay (add_calendar_days trigger_as_date deadline_days)
  let cure_deadline :=
    if truthyInt cure_period_days ∧ cure_period_type ≠ none then
      match cure_period_type, cure_period_days with
      | some DeadlineType.BUSINESS_DAYS, some k =>
          some (endOfDay (add_business_days (dateOf calculated_deadline) k holidays))
      | some DeadlineType.HOURS, some k =>
          some (add_hours calculated_deadline k)
      | some DeadlineType.CALENDAR_DAYS, some k =>
          some (endOfDay (add_calendar_days (dateOf calculated_deadline) k))
      | _, _ => none
    else none
  { calculatedDeadline := calculated_deadline
    severity := classify_severity calculated_deadline now none
    cureDeadline := cure_deadline }

/-! ## Deadline engine (`app/services/compliance/deadlines.py`) -/

/-- `create_deadline`.  Loads the clause, rejects clauses whose
`deadline_days` is falsy (`None` or `0`) or whose `deadline_type` is
unset, computes the deadline and appends the row plus one audit entry. -/
def create_deadline (db : DB) (project_id clause_id : Nat)
    (trigger_event_type : TriggerEventType) (trigger_description : String)
    (triggered_at : Nat) (trigger_event_id : Option Nat)
    (triggered_by : Option Nat) (holidays : Finset Nat) (now : Nat) :
    DB × Option ComplianceDeadline :=
  match db.clauses.find? (fun c => c.id = clause_id ∧ c.project_id = project_id) with
  | none => (db, none)
  | some clause =>
    if truthyInt clause.deadline_days = false ∨ clause.deadline_type = none then
      (db, none)
    else
      match clause.deadline_days, clause.deadline_type with
      | some days, some dtype =>
        let calcRes := calculate_deadline holidays triggered_at days dtype
          clause.cure_period_days clause.cure_period_type now
        let deadline : ComplianceDeadline :=
          { id := db.next_id
            project_id := project_id
            clause_id := clause_id
            trigger_event_type := trigger_event_type
            trigger_event_id := trigger_event_id
            trigger_description := trigger_description
            triggered_at := triggered_at
            triggered_by := triggered_by
            calculated_deadline := calcRes.calculatedDeadline
            status := DeadlineStatus.ACTIVE
            severity := calcRes.severity
            notice_id := none
            notice_created_at := none
            waived_at := none
            waived_by := none
            waiver_reason := none }
        let audit : ComplianceAuditLog :=
          { project_id := project_id
            event_type := "DEADLINE_CREATED"
            entity_type := "ComplianceDeadline"
            entity_id := deadline.id
            user_id := triggered_by
            actor_type := "SYSTEM"
            action := "create_deadline"
            details :=
              [("clauseId", toString clause_id),
               ("clauseTitle", clause.title),
               ("triggerType", trigger_event_type.value),
               ("triggerDescription", trigger_description),
               ("calculatedDeadline", toString calcRes.calculatedDeadline),
               ("severity", calcRes.severity.value)] }
        ({ db with
            deadlines := db.deadlines ++ [deadline]
            audit_log := db.audit_log ++ [audit]
            next_id := db.next_id + 1 },
         some deadline)
      | _, _ => (db, none)

/-- `get_deadline_by_id`. -/
def get_deadline_by_id (db : DB) (deadline_id project_id : Nat) :
    Option ComplianceDeadline :=
  db.deadlines.find? (fun d => d.id = deadline_id ∧ d.project_id = project_id)

/-- `update_deadline_status`. -/
def update_deadline_status (db : DB) (deadline_id project_id : Nat)
    (new_status : DeadlineStatus) (user_id : Option Nat)
    (notice_id : Option Nat) (now : Nat) : DB × Option ComplianceDeadline :=
  match get_deadline_by_id db deadline_id project_id with
  | none => (db, none)
  | some deadline =>
    let old_status := deadline.status
    let deadline' :=
      if new_status = DeadlineStatus.NOTICE_DRAFTED ∧ notice_id ≠ none then
        { deadline with
            status := new_status
            notice_id := notice_id
            notice_created_at := some now }
      else
        { deadline with status := new_status }
    let audit : ComplianceAuditLog :=
      { project_id := project_id
        event_type := "DEADLINE_STATUS_CHANGE"
        entity_type := "ComplianceDeadline"
        entity_id := deadline_id
        user_id := user_id
        actor_type := if user_id ≠ none then "USER" else "SYSTEM"
        action := "update_status"
        details :=
          [("oldStatus", old_status.value),
           ("newStatus", new_status.value),
           ("noticeId", toString notice_id)] }
    ({ (db.setDeadline deadline') with
        audit_log := db.audit_log ++ [audit] },
     some deadline')

/-- `waive_deadline`. -/
def waive_deadline (db : DB) (deadline_id project_id user_id : Nat)
    (reason : String) (now : Nat) : DB × Option ComplianceDeadline :=
  match get_deadline_by_id db deadline_id project_id with
  | none => (db, none)
  | some deadline =>
    let deadline' :=
      { deadline with
          status := DeadlineStatus.WAIVED
          waived_at := some now
          waived_by := some user_id
          waiver_reason := some reason
          severity := Severity.LOW }
    let audit : ComplianceAuditLog :=
      { project_id := project_id
        event_type := "DEADLINE_WAIVED"
        entity_type := "ComplianceDeadline"
        entity_id := deadline_id
        user_id := some user_id
        actor_type := "USER"
        action := "waive_deadline"
        details := [("reason", reason)] }
    ({ (db.setDeadline deadline') with
        audit_log := db.audit_log ++ [audit] },
     some deadline')

/-- Statuses treated as active by the severity passes. -/
def activeStatuses : List DeadlineStatus :=
  [DeadlineStatus.ACTIVE, DeadlineStatus.NOTICE_DRAFTED]

/-- Per-deadline body of the loop in `recalculate_severities`. -/
def recalcDeadline (now : Nat) (d : ComplianceDeadline) : ComplianceDeadline :=
  let new_severity := classify_severity d.calculated_deadline now (some d.status)
  if d.severity ≠ new_severity then
    { d with
        severity := new_severity
        status :=
          if new_severity = Severity.EXPIRED then DeadlineStatus.EXPIRED else d.status }
  else d

/-- Counters returned by `recalculate_severities`. -/
structure RecalcChanges where
  escalated : Nat
  changed : Nat
  expired : Nat
  total : Nat
deriving DecidableEq, Repr

/-- `recalculate_severities`: recompute severity for all `ACTIVE` and
`NOTICE_DRAFTED` deadlines of a project, transitioning to `EXPIRED` when
the new severity is `EXPIRED`.  No audit entry is written. -/
def recalculate_severities (db : DB) (project_id : Nat) (now : Nat) :
    DB × RecalcChanges :=
  let selected := db.deadlines.filter
    (fun d => d.project_id = project_id ∧ d.status ∈ activeStatuses)
  let changes : RecalcChanges :=
    { escalated := selected.countP (fun d =>
        d.severity ≠ classify_severity d.calculated_deadline now (some d.status) ∧
        severity_escalated d.severity
          (classify_severity d.calculated_deadline now (some d.status)))
      changed := selected.countP (fun d =>
        d.severity ≠ classify_severity d.calculated_deadline now (some d.status))
      expired := selected.countP (fun d =>
        d.severity ≠ classify_severity d.calculated_deadline now (some d.status) ∧
        classify_severity d.calculated_deadline now (some d.status) = Severity.EXPIRED)
      total := selected.length }
  ({ db with
      deadlines := db.deadlines.map (fun d =>
        if d.project_id = project_id ∧ d.status ∈ activeStatuses then
          recalcDeadline now d
        else d) },
   changes)

/-! ## Notice engine (`app/services/compliance/notices.py`) -/

/-- `create_notice`: create a DRAFT notice; when `deadline_id` is given and
found, atomically set the deadline to `NOTICE_DRAFTED` and link it; append
one audit entry. -/
def create_notice (db : DB) (project_id : Nat)
    (notice_type : ComplianceNoticeType) (title content : String)
    (user_id : Nat) (clause_id : Option Nat) (due_date : Option Nat)
    (recipient_name recipient_email : Option String)
    (deadline_id : Option Nat) (now : Nat) : DB × ComplianceNotice :=
  let notice : ComplianceNotice :=
    { id := db.next_id
      project_id := project_id
      type := notice_type
      status := ComplianceNoticeStatus.DRAFT
      title := title
      content := content
      recipient_name := recipient_name
      recipient_email := recipient_email
      due_date := due_date
      sent_at := none
      acknowledged_at := none
      clause_id := clause_id
      delivery_methods := []
      delivery_confirmation := []
      delivered_at := none
      on_time_status := none
      generated_by_ai := false
      ai_model := none
      created_by_id := user_id }
  let db1 := { db with notices := db.notices ++ [notice], next_id := db.next_id + 1 }
  let db2 :=
    match deadline_id with
    | none => db1
    | some did =>
      match db1.deadlines.find? (fun d : ComplianceDeadline => d.id = did ∧ d.project_id = project_id) with
      | none => db1
      | some deadline =>
        db1.setDeadline
          { deadline with
              status := DeadlineStatus.NOTICE_DRAFTED
              notice_id := some notice.id
              notice_created_at := some now }
  let audit : ComplianceAuditLog :=
    { project_id := project_id
      event_type := "NOTICE_CREATED"
      entity_type := "ComplianceNotice"
      entity_id := notice.id
      user_id := some user_id
      actor_type := "USER"
      action := "create_notice"
      details :=
        [("type", notice_type.value),
         ("title", title),
         ("deadlineId", toString deadline_id)] }
  ({ db2 with audit_log := db2.audit_log ++ [audit] }, notice)

/-- `get_notice_by_id`. -/
def get_notice_by_id (db : DB) (notice_id project_id : Nat) :
    Option ComplianceNotice :=
  db.notices.find? (fun n => n.id = notice_id ∧ n.project_id = project_id)

/-- The statuses in which a notice is editable. -/
def editableStatuses : List ComplianceNoticeStatus :=
  [ComplianceNoticeStatus.DRAFT, ComplianceNoticeStatus.PENDING_REVIEW]

/-- `update_notice`: edit title/content/recipient/due date; only DRAFT and
PENDING_REVIEW notices may be edited (`ValueError` otherwise, modelled as
`Except.error`); `Except.ok none` is the Python `None` (not found). -/
def update_notice (db : DB) (notice_id project_id : Nat) (_user_id : Nat)
    (title content recipient_name recipient_email : Option String)
    (due_date : Option Nat) :
    Except String (Option (DB × ComplianceNotice)) :=
  match get_notice_by_id db notice_id project_id with
  | none => Except.ok none
  | some notice =>
    if notice.status ∉ editableStatuses then
      Except.error s!"Cannot edit notice in {notice.status.value} status"
    else
      let notice' :=
        { notice with
            title := title.getD notice.title
            content := content.getD notice.content
            recipient_name :=
              match recipient_name with
              | some v => some v
              | none => notice.recipient_name
            recipient_email :=
              match recipient_email with
              | some v => some v
              | none => notice.recipient_email
            due_date :=
              match due_date with
              | some v => some v
              | none => notice.due_date }
      Except.ok (some (db.setNotice notice', notice'))

/-- `send_notice`: transmit via the email transport (its success is the
input `sent`), set `SENT`/`sentAt`/`deliveredAt`/`deliveryMethods`, freeze
`onTimeStatus`, cascade the linked deadline when the notice has a
`clause_id`, and append one audit entry. -/
def send_notice (db : DB) (notice_id project_id user_id : Nat) (now : Nat)
    (sent : Bool) : Except String (Option (DB × ComplianceNotice)) :=
  match get_notice_by_id db notice_id project_id with
  | none => Except.ok none
  | some notice =>
    if notice.status ∉ editableStatuses then
      Except.error s!"Cannot send notice in {notice.status.value} status"
    else if truthyStr notice.recipient_email = false then
      Except.error "Notice has no recipient email"
    else
      let notice' :=
        { notice with
            status := ComplianceNoticeStatus.SENT
            sent_at := some now
            delivered_at := if sent then some now else none
            delivery_methods := ["EMAIL"]
            on_time_status :=
              some (match notice.due_date with
                    | none => true
                    | some dd => now ≤ dd) }
      let db1 := db.setNotice notice'
      let db2 :=
        if notice.clause_id.isSome then
          match db1.deadlines.find?
            (fun d => d.notice_id = some notice.id ∧ d.project_id = project_id) with
          | none => db1
          | some deadline =>
            db1.setDeadline { deadline with status := DeadlineStatus.NOTICE_SENT }
        else db1
      let audit : ComplianceAuditLog :=
        { project_id := project_id
          event_type := "NOTICE_SENT"
          entity_type := "ComplianceNotice"
          entity_id := notice_id
          user_id := some user_id
          actor_type := "USER"
          action := "send_notice"
          details :=
            [("recipientEmail", (notice.recipient_email).getD ""),
             ("emailSent", toString sent),
             ("onTime", toString notice'.on_time_status)] }
      Except.ok (some ({ db2 with audit_log := db2.audit_log ++ [audit] }, notice'))

/-- `delete_notice`: only DRAFT and PENDING_REVIEW; unlink the deadline
(restore `ACTIVE`, clear `noticeId` and `noticeCreatedAt`), append one
audit entry, delete the row. -/
def delete_notice (db : DB) (notice_id project_id user_id : Nat) :
    Except String (DB × Bool) :=
  match get_notice_by_id db notice_id project_id with
  | none => Except.ok (db, false)
  | some notice =>
    if notice.status ∉ editableStatuses then
      Except.error s!"Cannot delete notice in {notice.status.value} status"
    else
      let db1 :=
        match db.deadlines.find?
          (fun d => d.notice_id = some notice_id ∧ d.project_id = project_id) with
        | none => db
        | some deadline =>
          db.setDeadline
            { deadline with
                notice_id := none
                notice_created_at := none
                status := DeadlineStatus.ACTIVE }
      let audit : ComplianceAuditLog :=
        { project_id := project_id
          event_type := "NOTICE_DELETED"
          entity_type := "ComplianceNotice"
          entity_id := notice_id
          user_id := some user_id
          actor_type := "USER"
          action := "delete_notice"
          details := [("title", notice.title), ("type", notice.type.value)] }
      Except.ok
        ({ db1 with
            notices := db1.notices.filter (fun n => n.id ≠ notice_id)
            audit_log := db1.audit_log ++ [audit] },
         true)

/-- Insert-or-replace into the `delivery_confirmation` dict. -/
def assocSet (l : List (String × Nat)) (k : String) (v : Nat) :
    List (String × Nat) :=
  if l.any (fun p => p.1 = k) then
    l.map (fun p => if p.1 = k then (k, v) else p)
  else l ++ [(k, v)]

/-- Canonical method keys of `confirm_delivery` (`method_key_map`), applied
to the lowered, underscore-stripped method name. -/
def methodKey (method : String) : String :=
  let m := (method.toLower).replace "_" ""
  if m = "email" then "email"
  else if m = "certifiedmail" then "certifiedMail"
  else if m = "registeredmail" then "registeredMail"
  else if m = "handdelivery" then "handDelivery"
  else if m = "fax" then "fax"
  else if m = "courier" then "courier"
  else m

/-- `confirm_delivery`: allowed only from SENT; record the structured entry,
set `deliveredAt`, transition to `ACKNOWLEDGED`, add the method, append one
audit entry. -/
def confirm_delivery (db : DB) (notice_id project_id user_id : Nat)
    (method : String) (tracking_number : Option String)
    (delivered_at : Option Nat) (now : Nat) :
    Except String (Option (DB × ComplianceNotice)) :=
  match get_notice_by_id db notice_id project_id with
  | none => Except.ok none
  | some notice =>
    if notice.status ≠ ComplianceNoticeStatus.SENT then
      Except.error s!"Cannot confirm delivery for notice in {notice.status.value} status"
    else
      let key := methodKey method
      let notice' :=
        { notice with
            delivery_confirmation :=
              assocSet notice.delivery_confirmation key (delivered_at.getD now)
            delivered_at := some (delivered_at.getD now)
            status := ComplianceNoticeStatus.ACKNOWLEDGED
            delivery_methods :=
              if method ∈ notice.delivery_methods then notice.delivery_methods
              else notice.delivery_methods ++ [method] }
      let audit : ComplianceAuditLog :=
        { project_id := project_id
          event_type := "DELIVERY_CONFIRMED"
          entity_type := "ComplianceNotice"
          entity_id := notice_id
          user_id := some user_id
          actor_type := "USER"
          action := "confirm_delivery"
          details :=
            [("method", method),
             ("trackingNumber", tracking_number.getD "")] }
      Except.ok
        (some ({ (db.setNotice notice') with
                  audit_log := db.audit_log ++ [audit] }, notice'))

/-! ## HTTP router (`app/routers/compliance.py`) -/

/-- Body of `PATCH /projects/{pid}/compliance/notices/{nid}`
(`UpdateNoticeRequest`); the status string has already passed enum
validation. -/
structure UpdateNoticeBody where
  title : Option String
  content : Option String
  recipient_name : Option String
  recipient_email : Option String
  status : Option ComplianceNoticeStatus
deriving DecidableEq, Repr

/-- `update_notice_endpoint`: runs `update_notice`, then handles a status
change separately; moving to `ACKNOWLEDGED` with no `acknowledgedAt` stamps
it and sets `onTimeStatus = true`. -/
def update_notice_endpoint (db : DB) (project_id notice_id user_id : Nat)
    (body : UpdateNoticeBody) (now : Nat) :
    Except String (DB × ComplianceNotice) :=
  match update_notice db notice_id project_id user_id body.title body.content
      body.recipient_name body.recipient_email none with
  | Except.error e => Except.error e
  | Except.ok none => Except.error "Notice not found"
  | Except.ok (some (db1, notice)) =>
    match body.status with
    | none => Except.ok (db1, notice)
    | some new_status =>
      let notice' :=
        if new_status = ComplianceNoticeStatus.ACKNOWLEDGED ∧
            notice.acknowledged_at = none then
          { notice with
              acknowledged_at := some now
              on_time_status := some true
              status := new_status }
        else
          { notice with status := new_status }
      Except.ok (db1.setNotice notice', notice')

/-! ## Trigger adapter (`app/services/compliance/integrations.py`) -/

/-- Clause kinds triggered by RFI change-order detection. -/
def RFI_CO_CLAUSE_KINDS : List ContractClauseKind :=
  [ContractClauseKind.CLAIMS_PROCEDURE, ContractClauseKind.CHANGE_ORDER_PROCESS]

/-- Clause kinds triggered by change events. -/
def CHANGE_EVENT_CLAUSE_KINDS : List ContractClauseKind :=
  [ContractClauseKind.CHANGE_ORDER_PROCESS, ContractClauseKind.CLAIMS_PROCEDURE,
   ContractClauseKind.NOTICE_REQUIREMENTS]

/-- Display form of an optional deadline type used in trigger descriptions
(`value.lower().replace("_", " ")`, defaulting to `"days"`). -/
def deadlineTypeDisplay : Option DeadlineType → String
  | some dt => (dt.value.toLower).replace "_" " "
  | none => "days"

/-- The statuses the idempotency query excludes: an existing deadline blocks
re-creation unless its status is `EXPIRED` or `WAIVED`. -/
def terminalStatuses : List DeadlineStatus :=
  [DeadlineStatus.EXPIRED, DeadlineStatus.WAIVED]

/-- The idempotency check of the trigger adapter: an existing deadline for
`(project, clause, trigger event, trigger type)` whose status is not
`EXPIRED`/`WAIVED`. -/
def existingBlocking (db : DB) (project_id clause_id : Nat)
    (trigger_event_id : Nat) (tet : TriggerEventType) : Bool :=
  (db.deadlines.find? (fun d =>
      d.project_id = project_id ∧ d.clause_id = clause_id ∧
      d.trigger_event_id = some trigger_event_id ∧
      d.trigger_event_type = tet ∧ d.status ∉ terminalStatuses)).isSome

/-- Per-clause body of the loop in `trigger_rfi_compliance` /
`trigger_change_event_compliance`. -/
def triggerClauseStep (tet : TriggerEventType) (project_id event_id : Nat)
    (descFor : ContractClause → String) (user_id : Option Nat)
    (holidays : Finset Nat) (now : Nat)
    (acc : DB × List ComplianceDeadline) (clause : ContractClause) :
    DB × List ComplianceDeadline :=
  let (db, created) := acc
  if existingBlocking db project_id clause.id event_id tet then
    (db, created)
  else
    match create_deadline db project_id clause.id tet (descFor clause) now
        (some event_id) user_id holidays now with
    | (db', some deadline) => (db', created ++ [deadline])
    | (db', none) => (db', created)

/-- `trigger_rfi_compliance`: find `CLAIMS_PROCEDURE` / `CHANGE_ORDER_PROCESS`
clauses with a non-null `deadline_days` and create one deadline per clause,
idempotent on `(projectId, clauseId, rfiId, RFI)` with non-terminal
existence. -/
def trigger_rfi_compliance (db : DB) (project_id rfi_id : Nat)
    (rfi_number rfi_subject : String) (user_id : Option Nat)
    (holidays : Finset Nat) (now : Nat) : DB × List ComplianceDeadline :=
  let clauses := db.clauses.filter (fun c =>
    c.project_id = project_id ∧ c.kind ∈ RFI_CO_CLAUSE_KINDS ∧
    c.deadline_days ≠ none)
  if clauses = [] then (db, [])
  else
    clauses.foldl
      (triggerClauseStep TriggerEventType.RFI project_id rfi_id
        (fun c =>
          let ref := (c.section_ref).getD c.title
          let dd := toString c.deadline_days
          let dt := deadlineTypeDisplay c.deadline_type
          s!"RFI #{rfi_number} \"{rfi_subject}\" flagged as potential change order. Per {ref}, notice is required within {dd} {dt}.")
        user_id holidays now)
      (db, [])

/-- `trigger_change_event_compliance`: analogous for change events with
`CHANGE_ORDER_PROCESS` / `CLAIMS_PROCEDURE` / `NOTICE_REQUIREMENTS` clauses
and `triggerEventType = CHANGE_ORDER`. -/
def trigger_change_event_compliance (db : DB) (project_id change_event_id : Nat)
    (change_description : String) (user_id : Option Nat)
    (holidays : Finset Nat) (now : Nat) : DB × List ComplianceDeadline :=
  let clauses := db.clauses.filter (fun c =>
    c.project_id = project_id ∧ c.kind ∈ CHANGE_EVENT_CLAUSE_KINDS ∧
    c.deadline_days ≠ none)
  if clauses = [] then (db, [])
  else
    clauses.foldl
      (triggerClauseStep TriggerEventType.CHANGE_ORDER project_id change_event_id
        (fun c =>
          let ref := (c.section_ref).getD c.title
          let dd := toString c.deadline_days
          let dt := deadlineTypeDisplay c.deadline_type
          s!"Change event: {change_description}. Per {ref}, notice is required within {dd} {dt}.")
        user_id holidays now)
      (db, [])

/-! ## Severity cron (`app/tasks/compliance_crons.py`, `_run_severity_cron`) -/

/-- The roles eligible for compliance alerts. -/
def eligibleRoles : List UserRole :=
  [UserRole.ADMIN, UserRole.PROJECT_MANAGER, UserRole.EXECUTIVE]

/-- The severity recomputation inlined in the cron (no status shortcut: the
query already restricts to `ACTIVE`/`NOTICE_DRAFTED`). -/
def cronClassify (now : Nat) (d : ComplianceDeadline) : Severity :=
  if d.calculated_deadline ≤ now then Severity.EXPIRED
  else if d.calculated_deadline - now ≤ 3 * secondsPerDay then Severity.CRITICAL
  else if d.calculated_deadline - now ≤ 7 * secondsPerDay then Severity.WARNING
  else if d.calculated_deadline - now ≤ 14 * secondsPerDay then Severity.INFO
  else Severity.LOW

/-- The updated row the cron writes for one deadline. -/
def cronUpdateDeadline (now : Nat) (d : ComplianceDeadline) : ComplianceDeadline :=
  let new_severity := cronClassify now d
  if d.severity ≠ new_severity then
    { d with
        severity := new_severity
        status :=
          if new_severity = Severity.EXPIRED then DeadlineStatus.EXPIRED else d.status }
  else d

/-- The severities for which the cron emits alerts (checked against the NEW
severity on every pass, changed or not). -/
def alertSeverities : List Severity :=
  [Severity.CRITICAL, Severity.WARNING, Severity.EXPIRED]

/-- The in-app notifications the cron emits for one deadline: one per
eligible user whenever the recomputed severity is CRITICAL/WARNING/EXPIRED,
regardless of whether the severity changed. -/
def cronNotifications (clauses : List ContractClause) (users : List User)
    (now : Nat) (d : ComplianceDeadline) : List Notification :=
  let new_severity := cronClassify now d
  if new_severity ∈ alertSeverities then
    let clause := clauses.find? (fun c => c.id = d.clause_id)
    let clause_title := (clause.map (fun c => c.title)).getD "Unknown"
    let clause_ref := ((clause.bind (fun c => c.section_ref))).getD ""
    let label :=
      if d.calculated_deadline ≤ now then "EXPIRED"
      else
        let days_remaining := (d.calculated_deadline - now) / secondsPerDay
        s!"{days_remaining} days remaining"
    let title := s!"{new_severity.value}: {clause_title}"
    let refDisplay := if clause_ref = "" then "N/A" else clause_ref
    let message := s!"Notice due {label} — {refDisplay}. {d.trigger_description}"
    (users.filter (fun u => u.role ∈ eligibleRoles)).map (fun u =>
      { user_id := u.id
        type := NotificationType.COMPLIANCE_DEADLINE
        severity :=
          if new_severity = Severity.CRITICAL ∨ new_severity = Severity.EXPIRED then
            NotificationSeverity.CRITICAL
          else NotificationSeverity.WARNING
        channel := NotificationChannel.IN_APP
        title := title
        message := message
        project_id := d.project_id
        entity_id := d.id
        entity_type := "ComplianceDeadline" })
  else []

/-- One project's pass of `_run_severity_cron`: update every
`ACTIVE`/`NOTICE_DRAFTED` deadline of the project and append its alert
notifications. -/
def cronProject (now : Nat) (db : DB) (project_id : Nat) : DB :=
  let selected := db.deadlines.filter
    (fun d => d.project_id = project_id ∧ d.status ∈ activeStatuses)
  { db with
      deadlines := db.deadlines.map (fun d =>
        if d.project_id = project_id ∧ d.status ∈ activeStatuses then
          cronUpdateDeadline now d
        else d)
      notifications := db.notifications ++
        selected.flatMap (cronNotifications db.clauses db.users now) }

/-- `_run_severity_cron`: for each project having `ACTIVE`/`NOTICE_DRAFTED`
deadlines, recompute severities, auto-expire, and emit alerts.  The returned
counters are logging only and are omitted.  No audit entry is written. -/
def run_severity_cron (db : DB) (now : Nat) : DB :=
  let pids := ((db.deadlines.filter (fun d => d.status ∈ activeStatuses)).map
    (fun d => d.project_id)).dedup
  pids.foldl (cronProject now) db

/-! ## Scoring engine (`app/services/compliance/scoring.py`) -/

/-- Default claims value per notice (`DEFAULT_CLAIMS_VALUE = 50000.00`). -/
def DEFAULT_CLAIMS_VALUE : Nat := 50000

/-- Python `round` on the exact ratio `a / b` (banker's rounding: ties go
to the even neighbour). -/
def round_ratio (a b : Nat) : Nat :=
  let q := a / b
  let r := a % b
  if 2 * r < b then q
  else if b < 2 * r then q + 1
  else if q % 2 = 0 then q else q + 1

/-- Sort key for `_calculate_streak` (`sent_at`, present after the filter). -/
def sentKey (n : ComplianceNotice) : Nat := (n.sent_at).getD 0

/-- `_calculate_streak`: filter out notices without `sent_at`, sort by
`sent_at` descending, count the leading run with `onTimeStatus` true. -/
def calculate_streak (notices : List ComplianceNotice) : Nat :=
  if notices = [] then 0
  else
    let sorted := List.insertionSort (fun a b => sentKey b ≤ sentKey a)
      (notices.filter (fun n => n.sent_at ≠ none))
    (sorted.takeWhile (fun n => n.on_time_status = some true)).length

/-- `_build_details`. -/
def build_details (score on_time total missed at_risk active streak : Nat) :
    List (String × String) :=
  [("score", toString score),
   ("onTimeCount", toString on_time),
   ("totalCount", toString total),
   ("missedCount", toString missed),
   ("atRiskCount", toString at_risk),
   ("activeDeadlines", toString active),
   ("currentStreak", toString streak),
   ("formula", "onTimeCount / totalCount * 100")]

/-- `calculate_score`.  `notices` is the query result for the project's
notices in statuses SENT/ACKNOWLEDGED, `deadlines` the project's deadlines
in statuses ACTIVE/NOTICE_DRAFTED, and `prev` the stored score row returned
by the upsert lookup (the most recently calculated row, `None` on first
calculation); the returned record is the row as written back. -/
def calculate_score (prev : Option ComplianceScore)
    (project_id : Nat) (notices : List ComplianceNotice)
    (deadlines : List ComplianceDeadline) (now : Nat) : ComplianceScore :=
  let total_count := notices.length
  let on_time_count := notices.countP (fun n => n.on_time_status = some true)
  let missed_count := notices.countP (fun n => n.on_time_status = some false)
  let score :=
    if 0 < total_count then round_ratio (on_time_count * 100) total_count else 100
  let at_risk_count := deadlines.countP (fun d =>
    d.severity = Severity.CRITICAL ∨ d.severity = Severity.WARNING)
  let active_count := deadlines.length
  let upcoming_count := deadlines.countP (fun d =>
    d.severity = Severity.LOW ∨ d.severity = Severity.INFO)
  let protected_value := on_time_count * DEFAULT_CLAIMS_VALUE
  let at_risk_value := at_risk_count * DEFAULT_CLAIMS_VALUE
  let streak := calculate_streak notices
  match prev with
  | some record =>
    let old_streak := record.current_streak
    { record with
        score := score
        on_time_count := on_time_count
        total_count := total_count
        missed_count := missed_count
        at_risk_count := at_risk_count
        active_count := active_count
        upcoming_count := upcoming_count
        protected_claims_value := protected_value
        at_risk_value := at_risk_value
        current_streak := streak
        best_streak := max record.best_streak streak
        last_calculated_at := now
        calculated_at := now
        details := build_details score on_time_count total_count missed_count
          at_risk_count active_count streak
        streak_broken_at :=
          if streak < old_streak ∧ 0 < old_streak then some now
          else record.streak_broken_at }
  | none =>
    { project_id := project_id
      score := score
      details := build_details score on_time_count total_count missed_count
        at_risk_count active_count streak
      current_streak := streak
      best_streak := streak
      streak_broken_at := none
      protected_claims_value := protected_value
      at_risk_value := at_risk_value
      on_time_count := on_time_count
      total_count := total_count
      missed_count := missed_count
      at_risk_count := at_risk_count
      active_count := active_count
      upcoming_count := upcoming_count
      last_calculated_at := now
      calculated_at := now }

/-- One observation the Scoring Engine is run against: the project's
SENT/ACKNOWLEDGED notices, its ACTIVE/NOTICE_DRAFTED deadlines, and the
clock, at that calculation. -/
structure ScoringInput where
  notices : List ComplianceNotice
  deadlines : List ComplianceDeadline
  now : Nat

/-- Repeated score calculation: each step feeds the stored row (the previous
step's result) back through `calculate_score`, exactly as the upsert does. -/
def runScoring (project_id : Nat) :
    Option ComplianceScore → List ScoringInput → Option ComplianceScore
  | prev, [] => prev
  | prev, step :: rest =>
    runScoring project_id
      (some (calculate_score prev project_id step.notices step.deadlines step.now))
      rest

/-- Sent notices are never deleted and `onTimeStatus` is never unset:
between two consecutive score calculations the earlier SENT/ACKNOWLEDGED
notice rows are still among the later ones.  (A SENT notice cannot be
deleted or edited, and nothing clears `onTimeStatus`.) -/
def noticesPreserved : List ScoringInput → Prop :=
  List.Chain' (fun a b => a.notices.Sublist b.notices)

/-! ## Helper lemmas about the deadline engine -/

theorem create_deadline_not_found (db : DB) (pid cid : Nat)
    (tet : TriggerEventType) (desc : String) (t : Nat) (teid tb : Option Nat)
    (H : Finset Nat) (now : Nat)
    (hfind : db.clauses.find? (fun c => c.id = cid ∧ c.project_id = pid) = none) :
    create_deadline db pid cid tet desc t teid tb H now = (db, none) := by
  unfold create_deadline
  rw [hfind]

theorem create_deadline_none_of_guard (db : DB) (pid cid : Nat)
    (tet : TriggerEventType) (desc : String) (t : Nat) (teid tb : Option Nat)
    (H : Finset Nat) (now : Nat) (clause : ContractClause)
    (hfind : db.clauses.find? (fun c => c.id = cid ∧ c.project_id = pid) = some clause)
    (hguard : truthyInt clause.deadline_days = false ∨ clause.deadline_type = none) :
    create_deadline db pid cid tet desc t teid tb H now = (db, none) := by
  simp only [create_deadline, hfind]
  simp [hguard]

theorem create_deadline_some (db : DB) (pid cid : Nat)
    (tet : TriggerEventType) (desc : String) (t : Nat) (teid tb : Option Nat)
    (H : Finset Nat) (now : Nat) (clause : ContractClause) (k : Int)
    (dt : DeadlineType)
    (hfind : db.clauses.find? (fun c => c.id = cid ∧ c.project_id = pid) = some clause)
    (hdd : clause.deadline_days = some k) (hk : k ≠ 0)
    (hdt : clause.deadline_type = some dt) :
    ∃ dl a, create_deadline db pid cid tet desc t teid tb H now =
        ({ db with
            deadlines := db.deadlines ++ [dl]
            audit_log := db.audit_log ++ [a]
            next_id := db.next_id + 1 }, some dl) ∧
      dl.id = db.next_id ∧ dl.project_id = pid ∧ dl.clause_id = cid ∧
      dl.trigger_event_type = tet ∧ dl.trigger_event_id = teid ∧
      dl.triggered_at = t ∧ dl.status = DeadlineStatus.ACTIVE ∧
      dl.calculated_deadline =
        (calculate_deadline H t k dt clause.cure_period_days
          clause.cure_period_type now).calculatedDeadline ∧
      a.entity_type = "ComplianceDeadline" ∧ a.entity_id = dl.id ∧
      a.project_id = pid := by
  simp only [create_deadline, hfind, hdd, hdt]
  rw [if_neg (show ¬ (truthyInt (some k) = false ∨ (some dt : Option DeadlineType) = none) from
    by simp [truthyInt, hk])]
  exact ⟨_, _, rfl, rfl, rfl, rfl, rfl, rfl, rfl, rfl, rfl, rfl, rfl, rfl⟩

theorem create_deadline_shape (db : DB) (pid cid : Nat)
    (tet : TriggerEventType) (desc : String) (t : Nat) (teid tb : Option Nat)
    (H : Finset Nat) (now : Nat) :
    create_deadline db pid cid tet desc t teid tb H now = (db, none) ∨
    ∃ dl a, create_deadline db pid cid tet desc t teid tb H now =
        ({ db with
            deadlines := db.deadlines ++ [dl]
            audit_log := db.audit_log ++ [a]
            next_id := db.next_id + 1 }, some dl) ∧
      dl.project_id = pid ∧ dl.clause_id = cid ∧
      dl.trigger_event_type = tet ∧ dl.trigger_event_id = teid ∧
      dl.status = DeadlineStatus.ACTIVE := by
  cases hfind : db.clauses.find? (fun c => c.id = cid ∧ c.project_id = pid) with
  | none => exact Or.inl (create_deadline_not_found db pid cid tet desc t teid tb H now hfind)
  | some clause =>
    by_cases hguard : truthyInt clause.deadline_days = false ∨ clause.deadline_type = none
    · exact Or.inl (create_deadline_none_of_guard db pid cid tet desc t teid tb H now
        clause hfind hguard)
    · push_neg at hguard
      obtain ⟨hdd, hdt⟩ := hguard
      cases hdd2 : clause.deadline_days with
      | none => simp [truthyInt, hdd2] at hdd
      | some k =>
        cases hdt2 : clause.deadline_type with
        | none => exact absurd hdt2 hdt
        | some dt =>
          have hk : k ≠ 0 := by
            intro hk0
            rw [hdd2, hk0] at hdd
            simp [truthyInt] at hdd
          obtain ⟨dl, a, heq, _, h2, h3, h4, h5, _, h7, _, _, _⟩ :=
            create_deadline_some db pid cid tet desc t teid tb H now clause k dt
              hfind hdd2 hk hdt2
          exact Or.inr ⟨dl, a, heq, h2, h3, h4, h5, h7⟩

/-! ## Helper lemmas about the trigger adapter -/

/-- The idempotency tuple of spec sections 4.4/4.6:
`(projectId, clauseId, triggerEventId, triggerEventType)`. -/
def tupleMatch (pid cid teid : Nat) (tet : TriggerEventType)
    (d : ComplianceDeadline) : Bool :=
  decide (d.project_id = pid ∧ d.clause_id = cid ∧
    d.trigger_event_id = some teid ∧ d.trigger_event_type = tet)

theorem existingBlocking_of_mem (db : DB) (pid cid teid : Nat)
    (tet : TriggerEventType) (d₀ : ComplianceDeadline)
    (hmem : d₀ ∈ db.deadlines)
    (hm : tupleMatch pid cid teid tet d₀ = true)
    (ht : d₀.status ∉ terminalStatuses) :
    existingBlocking db pid cid teid tet = true := by
  simp only [tupleMatch, decide_eq_true_eq] at hm
  obtain ⟨h1, h2, h3, h4⟩ := hm
  unfold existingBlocking
  simp only [List.find?_isSome]
  exact ⟨d₀, hmem, by simp [h1, h2, h3, h4, ht]⟩

theorem trigger_fold_invariant (tet : TriggerEventType) (pid teid : Nat)
    (descFor : ContractClause → String) (uid : Option Nat) (H : Finset Nat)
    (now : Nat) (cid : Nat) (d₀ : ComplianceDeadline)
    (hm : tupleMatch pid cid teid tet d₀ = true)
    (ht : d₀.status ∉ terminalStatuses) :
    ∀ (cs : List ContractClause) (db : DB) (created : List ComplianceDeadline),
      d₀ ∈ db.deadlines →
      (∀ x ∈ created, tupleMatch pid cid teid tet x = false) →
      d₀ ∈ (cs.foldl (triggerClauseStep tet pid teid descFor uid H now)
        (db, created)).1.deadlines ∧
      (∀ x ∈ (cs.foldl (triggerClauseStep tet pid teid descFor uid H now)
        (db, created)).2, tupleMatch pid cid teid tet x = false) ∧
      ((cs.foldl (triggerClauseStep tet pid teid descFor uid H now)
        (db, created)).1.deadlines.countP (tupleMatch pid cid teid tet) =
        db.deadlines.countP (tupleMatch pid cid teid tet)) := by
  intro cs
  induction cs with
  | nil =>
    intro db created hmem hcr
    exact ⟨hmem, hcr, rfl⟩
  | cons c cs ih =>
    intro db created hmem hcr
    rw [List.foldl_cons]
    by_cases hblock : existingBlocking db pid c.id teid tet = true
    · have hstep : triggerClauseStep tet pid teid descFor uid H now (db, created) c =
          (db, created) := by
        unfold triggerClauseStep
        simp [hblock]
      rw [hstep]
      exact ih db created hmem hcr
    · have hcid : c.id ≠ cid := by
        intro heq
        exact hblock (heq ▸ existingBlocking_of_mem db pid cid teid tet d₀ hmem hm ht)
      rcases create_deadline_shape db pid c.id tet (descFor c) now (some teid) uid H
          now with hnone | ⟨dl, a, heq, _, hclause, _, _, _⟩
      · have hstep : triggerClauseStep tet pid teid descFor uid H now (db, created) c =
            (db, created) := by
          unfold triggerClauseStep
          simp only [hblock, if_false, Bool.false_eq_true]
          rw [hnone]
        rw [hstep]
        exact ih db created hmem hcr
      · have hstep : triggerClauseStep tet pid teid descFor uid H now (db, created) c =
            ({ db with
                deadlines := db.deadlines ++ [dl]
                audit_log := db.audit_log ++ [a]
                next_id := db.next_id + 1 }, created ++ [dl]) := by
          unfold triggerClauseStep
          simp only [hblock, if_false, Bool.false_eq_true]
          rw [heq]
        rw [hstep]
        have hdl : tupleMatch pid cid teid tet dl = false := by
          simp [tupleMatch, hclause, hcid]
        have hmem' : d₀ ∈ db.deadlines ++ [dl] := List.mem_append_left _ hmem
        have hcr' : ∀ x ∈ created ++ [dl], tupleMatch pid cid teid tet x = false := by
          intro x hx
          rcases List.mem_append.mp hx with hx1 | hx2
          · exact hcr x hx1
          · rw [List.mem_singleton.mp hx2]; exact hdl
        obtain ⟨r1, r2, r3⟩ := ih
          ({ db with
              deadlines := db.deadlines ++ [dl]
              audit_log := db.audit_log ++ [a]
              next_id := db.next_id + 1 }) (created ++ [dl]) hmem' hcr'
        refine ⟨r1, r2, ?_⟩
        rw [r3]
        simp [List.countP_append, hdl]

theorem trigger_rfi_no_new (db : DB) (pid rfiId cid : Nat) (num subj : String)
    (uid : Option Nat) (H : Finset Nat) (now : Nat) (d₀ : ComplianceDeadline)
    (hmem : d₀ ∈ db.deadlines)
    (hm : tupleMatch pid cid rfiId TriggerEventType.RFI d₀ = true)
    (ht : d₀.status ∉ terminalStatuses) :
    ((trigger_rfi_compliance db pid rfiId num subj uid H now).1.deadlines.countP
        (tupleMatch pid cid rfiId TriggerEventType.RFI) =
      db.deadlines.countP (tupleMatch pid cid rfiId TriggerEventType.RFI)) ∧
    (∀ x ∈ (trigger_rfi_compliance db pid rfiId num subj uid H now).2,
      tupleMatch pid cid rfiId TriggerEventType.RFI x = false) := by
  unfold trigger_rfi_compliance
  by_cases hL : db.clauses.filter (fun c =>
      c.project_id = pid ∧ c.kind ∈ RFI_CO_CLAUSE_KINDS ∧ c.deadline_days ≠ none) = []
  · rw [if_pos hL]
    exact ⟨rfl, by intro x hx; simp at hx⟩
  · rw [if_neg hL]
    obtain ⟨_, r2, r3⟩ := trigger_fold_invariant TriggerEventType.RFI pid rfiId _
      uid H now cid d₀ hm ht _ db [] hmem (by intro x hx; simp at hx)
    exact ⟨r3, r2⟩

theorem trigger_change_no_new (db : DB) (pid ceId cid : Nat) (cdesc : String)
    (uid : Option Nat) (H : Finset Nat) (now : Nat) (d₀ : ComplianceDeadline)
    (hmem : d₀ ∈ db.deadlines)
    (hm : tupleMatch pid cid ceId TriggerEventType.CHANGE_ORDER d₀ = true)
    (ht : d₀.status ∉ terminalStatuses) :
    ((trigger_change_event_compliance db pid ceId cdesc uid H now).1.deadlines.countP
        (tupleMatch pid cid ceId TriggerEventType.CHANGE_ORDER) =
      db.deadlines.countP (tupleMatch pid cid ceId TriggerEventType.CHANGE_ORDER)) ∧
    (∀ x ∈ (trigger_change_event_compliance db pid ceId cdesc uid H now).2,
      tupleMatch pid cid ceId TriggerEventType.CHANGE_ORDER x = false) := by
  unfold trigger_change_event_compliance
  by_cases hL : db.clauses.filter (fun c =>
      c.project_id = pid ∧ c.kind ∈ CHANGE_EVENT_CLAUSE_KINDS ∧ c.deadline_days ≠ none) = []
  · rw [if_pos hL]
    exact ⟨rfl, by intro x hx; simp at hx⟩
  · rw [if_neg hL]
    obtain ⟨_, r2, r3⟩ := trigger_fold_invariant TriggerEventType.CHANGE_ORDER pid ceId _
      uid H now cid d₀ hm ht _ db [] hmem (by intro x hx; simp at hx)
    exact ⟨r3, r2⟩

/-- C3: for every trigger event (an RFI flagged as change order, or a change
event) whose tuple `(projectId, clauseId, triggerEventId, triggerEventType)`
matches an existing non-terminal deadline (status not `EXPIRED`/`WAIVED`),
processing the trigger creates zero new deadlines for that tuple: the count
of deadlines matching the tuple is unchanged and no returned deadline
matches it. -/
theorem C3_trigger_idempotent (db : DB) (pid rfiId ceId cidR cidC : Nat)
    (num subj cdesc : String) (uid : Option Nat) (H : Finset Nat) (now : Nat)
    (dR dC : ComplianceDeadline)
    (hmemR : dR ∈ db.deadlines)
    (hmR : tupleMatch pid cidR rfiId TriggerEventType.RFI dR = true)
    (htR : dR.status ∉ terminalStatuses)
    (hmemC : dC ∈ db.deadlines)
    (hmC : tupleMatch pid cidC ceId TriggerEventType.CHANGE_ORDER dC = true)
    (htC : dC.status ∉ terminalStatuses) :
    (((trigger_rfi_compliance db pid rfiId num subj uid H now).1.deadlines.countP
        (tupleMatch pid cidR rfiId TriggerEventType.RFI) =
      db.deadlines.countP (tupleMatch pid cidR rfiId TriggerEventType.RFI)) ∧
     (∀ x ∈ (trigger_rfi_compliance db pid rfiId num subj uid H now).2,
        tupleMatch pid cidR rfiId TriggerEventType.RFI x = false)) ∧
    (((trigger_change_event_compliance db pid ceId cdesc uid H now).1.deadlines.countP
        (tupleMatch pid cidC ceId TriggerEventType.CHANGE_ORDER) =
      db.deadlines.countP (tupleMatch pid cidC ceId TriggerEventType.CHANGE_ORDER)) ∧
     (∀ x ∈ (trigger_change_event_compliance db pid ceId cdesc uid H now).2,
        tupleMatch pid cidC ceId TriggerEventType.CHANGE_ORDER x = false)) :=
  ⟨trigger_rfi_no_new db pid rfiId cidR num subj uid H now dR hmemR hmR htR,
   trigger_change_no_new db pid ceId cidC cdesc uid H now dC hmemC hmC htC⟩

/-- C10: an existing `COMPLETED` deadline for the tuple blocks creation (it
is not in the excluded `EXPIRED`/`WAIVED` set), and — for both trigger
kinds — a new deadline for a tuple is created only when every existing
deadline for that tuple has status `EXPIRED` or `WAIVED`. -/
theorem C10_completed_blocks (db : DB) (pid rfiId ceId cidR cidC : Nat)
    (num subj cdesc : String) (uid : Option Nat) (H : Finset Nat) (now : Nat)
    (dR : ComplianceDeadline)
    (hmemR : dR ∈ db.deadlines)
    (hmR : tupleMatch pid cidR rfiId TriggerEventType.RFI dR = true)
    (hcR : dR.status = DeadlineStatus.COMPLETED) :
    (((trigger_rfi_compliance db pid rfiId num subj uid H now).1.deadlines.countP
        (tupleMatch pid cidR rfiId TriggerEventType.RFI) =
      db.deadlines.countP (tupleMatch pid cidR rfiId TriggerEventType.RFI)) ∧
     (∀ x ∈ (trigger_rfi_compliance db pid rfiId num subj uid H now).2,
        tupleMatch pid cidR rfiId TriggerEventType.RFI x = false)) ∧
    (∀ x ∈ (trigger_rfi_compliance db pid rfiId num subj uid H now).2,
      tupleMatch pid cidR rfiId TriggerEventType.RFI x = true →
      ∀ d₀ ∈ db.deadlines, tupleMatch pid cidR rfiId TriggerEventType.RFI d₀ = true →
        d₀.status ∈ terminalStatuses) ∧
    (∀ x ∈ (trigger_change_event_compliance db pid ceId cdesc uid H now).2,
      tupleMatch pid cidC ceId TriggerEventType.CHANGE_ORDER x = true →
      ∀ d₀ ∈ db.deadlines, tupleMatch pid cidC ceId TriggerEventType.CHANGE_ORDER d₀ = true →
        d₀.status ∈ terminalStatuses) := by
  have htR : dR.status ∉ terminalStatuses := by
    rw [hcR]; simp [terminalStatuses]
  refine ⟨trigger_rfi_no_new db pid rfiId cidR num subj uid H now dR hmemR hmR htR,
    ?_, ?_⟩
  · intro x hx htm d₀ hd₀ hm₀
    by_contra hterm
    have := (trigger_rfi_no_new db pid rfiId cidR num subj uid H now d₀ hd₀ hm₀
      hterm).2 x hx
    rw [htm] at this
    exact Bool.true_eq_false.mp this
  · intro x hx htm d₀ hd₀ hm₀
    by_contra hterm
    have := (trigger_change_no_new db pid ceId cidC cdesc uid H now d₀ hd₀ hm₀
      hterm).2 x hx
    rw [htm] at this
    exact Bool.true_eq_false.mp this

/-! ## Concrete fixtures for witnesses and counterexamples -/

/-- An existing non-terminal RFI-triggered deadline (tuple `(10, 1, 100, RFI)`). -/
def dRfix : ComplianceDeadline :=
  { id := 2, project_id := 10, clause_id := 1
    trigger_event_type := TriggerEventType.RFI, trigger_event_id := some 100
    trigger_description := "r", triggered_at := 0, triggered_by := none
    calculated_deadline := 950399, status := DeadlineStatus.ACTIVE
    severity := Severity.LOW, notice_id := none, notice_created_at := none
    waived_at := none, waived_by := none, waiver_reason := none }

/-- An existing non-terminal change-order deadline (tuple `(10, 1, 200, CHANGE_ORDER)`). -/
def dCfix : ComplianceDeadline :=
  { dRfix with
    id := 3
    trigger_event_type := TriggerEventType.CHANGE_ORDER
    trigger_event_id := some 200
    status := DeadlineStatus.NOTICE_DRAFTED }

/-- An existing COMPLETED RFI-triggered deadline (tuple `(10, 1, 300, RFI)`). -/
def dDonefix : ComplianceDeadline :=
  { dRfix with
    id := 4
    trigger_event_id := some 300
    status := DeadlineStatus.COMPLETED }

/-- A database with the three trigger-adapter fixtures. -/
def dbTrig : DB :=
  { clauses := [], deadlines := [dRfix, dCfix, dDonefix], notices := []
    audit_log := [], notifications := [], users := [], next_id := 5 }

/-- Witness for C3 at concrete inputs. -/
theorem C3_witness :
    (((trigger_rfi_compliance dbTrig 10 100 "R-1" "subj" none ∅ 0).1.deadlines.countP
        (tupleMatch 10 1 100 TriggerEventType.RFI) =
      dbTrig.deadlines.countP (tupleMatch 10 1 100 TriggerEventType.RFI)) ∧
     (∀ x ∈ (trigger_rfi_compliance dbTrig 10 100 "R-1" "subj" none ∅ 0).2,
        tupleMatch 10 1 100 TriggerEventType.RFI x = false)) ∧
    (((trigger_change_event_compliance dbTrig 10 200 "cd" none ∅ 0).1.deadlines.countP
        (tupleMatch 10 1 200 TriggerEventType.CHANGE_ORDER) =
      dbTrig.deadlines.countP (tupleMatch 10 1 200 TriggerEventType.CHANGE_ORDER)) ∧
     (∀ x ∈ (trigger_change_event_compliance dbTrig 10 200 "cd" none ∅ 0).2,
        tupleMatch 10 1 200 TriggerEventType.CHANGE_ORDER x = false)) :=
  C3_trigger_idempotent dbTrig 10 100 200 1 1 "R-1" "subj" "cd" none ∅ 0 dRfix dCfix
    (by decide) (by decide) (by decide) (by decide) (by decide) (by decide)

/-- Witness for C10 at concrete inputs. -/
theorem C10_witness :
    (((trigger_rfi_compliance dbTrig 10 300 "R-1" "subj" none ∅ 0).1.deadlines.countP
        (tupleMatch 10 1 300 TriggerEventType.RFI) =
      dbTrig.deadlines.countP (tupleMatch 10 1 300 TriggerEventType.RFI)) ∧
     (∀ x ∈ (trigger_rfi_compliance dbTrig 10 300 "R-1" "subj" none ∅ 0).2,
        tupleMatch 10 1 300 TriggerEventType.RFI x = false)) ∧
    (∀ x ∈ (trigger_rfi_compliance dbTrig 10 300 "R-1" "subj" none ∅ 0).2,
      tupleMatch 10 1 300 TriggerEventType.RFI x = true →
      ∀ d₀ ∈ dbTrig.deadlines, tupleMatch 10 1 300 TriggerEventType.RFI d₀ = true →
        d₀.status ∈ terminalStatuses) ∧
    (∀ x ∈ (trigger_change_event_compliance dbTrig 10 200 "cd" none ∅ 0).2,
      tupleMatch 10 1 200 TriggerEventType.CHANGE_ORDER x = true →
      ∀ d₀ ∈ dbTrig.deadlines, tupleMatch 10 1 200 TriggerEventType.CHANGE_ORDER d₀ = true →
        d₀.status ∈ terminalStatuses) :=
  C10_completed_blocks dbTrig 10 300 200 1 1 "R-1" "subj" "cd" none ∅ 0 dDonefix
    (by decide) (by decide) (by decide)

/-! ## Claims C4 and C8: business-day arithmetic -/

theorem dateOf_endOfDay (d : Nat) : dateOf (endOfDay d) = d := by
  simp [dateOf, endOfDay, secondsPerDay]
  omega

theorem calculate_deadline_business (H : Finset Nat) (t : Nat) (k : Int)
    (cpd : Option Int) (cpt : Option DeadlineType) (now : Nat) :
    (calculate_deadline H t k DeadlineType.BUSINESS_DAYS cpd cpt now).calculatedDeadline =
      endOfDay (add_business_days (dateOf t) k H) := rfl

/-- C4: counting the business days from `d` (exclusive) to
`addBusinessDays(d, k, H)` (inclusive) over `H` yields exactly `k` for every
`k > 0`; hence a deadline created from a `BUSINESS_DAYS` clause with
`deadlineDays = k` satisfies
`count_business_days(triggeredAt, calculatedDeadline) = k` for the holiday
set at creation time. -/
theorem C4_business_day_roundtrip (start : Nat) (k : Int) (H : Finset Nat)
    (hk : 0 < k) (db : DB) (pid cid : Nat) (tet : TriggerEventType)
    (desc : String) (t : Nat) (teid tb : Option Nat) (H2 : Finset Nat)
    (now : Nat) (clause : ContractClause)
    (hfind : db.clauses.find? (fun c => c.id = cid ∧ c.project_id = pid) = some clause)
    (hdd : clause.deadline_days = some k)
    (hdt : clause.deadline_type = some DeadlineType.BUSINESS_DAYS) :
    count_business_days_between start (add_business_days start k H) H = k.toNat ∧
    ∃ db' dl, create_deadline db pid cid tet desc t teid tb H2 now = (db', some dl) ∧
      count_business_days_between (dateOf t) (dateOf dl.calculated_deadline) H2 =
        k.toNat := by
  constructor
  · exact count_addBusinessDaysAux H k.toNat start
  · obtain ⟨dl, a, heq, _, _, _, _, _, _, _, hcalc, _, _, _⟩ :=
      create_deadline_some db pid cid tet desc t teid tb H2 now clause k
        DeadlineType.BUSINESS_DAYS hfind hdd (by omega) hdt
    refine ⟨_, dl, heq, ?_⟩
    rw [hcalc, calculate_deadline_business, dateOf_endOfDay]
    exact count_addBusinessDaysAux H2 k.toNat (dateOf t)

/-- A `BUSINESS_DAYS` clause with `deadlineDays = 3` for the C4 witness. -/
def clauseBiz : ContractClause :=
  { id := 1, project_id := 10, kind := ContractClauseKind.CLAIMS_PROCEDURE
    title := "Claims procedure", content := "c", section_ref := some "3.1"
    deadline_days := some 3, deadline_type := some DeadlineType.BUSINESS_DAYS
    cure_period_days := none, cure_period_type := none, confirmed := false
    requires_review := false, ai_extracted := true, source_doc_id := none }

/-- A database holding `clauseBiz`. -/
def dbBiz : DB :=
  { clauses := [clauseBiz], deadlines := [], notices := [], audit_log := []
    notifications := [], users := [], next_id := 7 }

/-- Witness for C4 at concrete inputs. -/
theorem C4_witness :
    count_business_days_between 0 (add_business_days 0 3 ∅) ∅ = (3 : Int).toNat ∧
    ∃ db' dl, create_deadline dbBiz 10 1 TriggerEventType.MANUAL "m" 867600 none
        none ∅ 864000 = (db', some dl) ∧
      count_business_days_between (dateOf 867600) (dateOf dl.calculated_deadline) ∅ =
        (3 : Int).toNat :=
  C4_business_day_roundtrip 0 3 ∅ (by decide) dbBiz 10 1 TriggerEventType.MANUAL
    "m" 867600 none none ∅ 864000 clauseBiz (by decide) (by decide) (by decide)

/-- C8 (amended): `addBusinessDays(d, 0, H) = d`, and for every non-positive
count the loop body never runs and `d` is returned; deadline creation
rejects a clause whose `deadlineDays` is `None` or `0` (Python falsiness),
but a negative `deadlineDays` passes the guard and produces a deadline whose
`calculatedDeadline` is the end of the trigger day. -/
theorem C8_add_zero_and_negative_boundary (d : Nat) (kZ : Int) (H : Finset Nat)
    (hkZ : kZ ≤ 0) (db : DB) (pid cid0 cidN : Nat) (tet : TriggerEventType)
    (desc : String) (t : Nat) (teid tb : Option Nat) (H2 : Finset Nat)
    (now : Nat) (clause0 clauseN : ContractClause) (kN : Int)
    (hfind0 : db.clauses.find? (fun c => c.id = cid0 ∧ c.project_id = pid) = some clause0)
    (h0 : clause0.deadline_days = none ∨ clause0.deadline_days = some 0)
    (hfindN : db.clauses.find? (fun c => c.id = cidN ∧ c.project_id = pid) = some clauseN)
    (hN : clauseN.deadline_days = some kN) (hkN : kN < 0)
    (hdtN : clauseN.deadline_type = some DeadlineType.BUSINESS_DAYS) :
    add_business_days d 0 H = d ∧
    add_business_days d kZ H = d ∧
    create_deadline db pid cid0 tet desc t teid tb H2 now = (db, none) ∧
    ∃ db' dl, create_deadline db pid cidN tet desc t teid tb H2 now =
        (db', some dl) ∧
      dl.calculated_deadline = endOfDay (dateOf t) := by
  refine ⟨rfl, ?_, ?_, ?_⟩
  · unfold add_business_days
    rw [Int.toNat_of_nonpos hkZ]
    rfl
  · apply create_deadline_none_of_guard db pid cid0 tet desc t teid tb H2 now
      clause0 hfind0
    left
    rcases h0 with h | h <;> simp [truthyInt, h]
  · obtain ⟨dl, a, heq, _, _, _, _, _, _, _, hcalc, _, _, _⟩ :=
      create_deadline_some db pid cidN tet desc t teid tb H2 now clauseN kN
        DeadlineType.BUSINESS_DAYS hfindN hN (by omega) hdtN
    refine ⟨_, dl, heq, ?_⟩
    rw [hcalc, calculate_deadline_business]
    unfold add_business_days
    rw [Int.toNat_of_nonpos (le_of_lt hkN)]
    rfl

/-- A clause with `deadlineDays = 0` (falsy) for the C8 witness. -/
def clauseZero : ContractClause :=
  { clauseBiz with id := 2, deadline_days := some 0 }

/-- A clause with negative `deadlineDays` and `BUSINESS_DAYS` type. -/
def clauseNeg : ContractClause :=
  { clauseBiz with id := 3, deadline_days := some (-3) }

/-- A database holding the zero-days and negative-days clauses. -/
def dbC8 : DB :=
  { clauses := [clauseZero, clauseNeg], deadlines := [], notices := []
    audit_log := [], notifications := [], users := [], next_id := 7 }

/-- Counterexample for C8 as stated: a clause with `deadlineDays = -3`
(`BUSINESS_DAYS`) is not rejected — `create_deadline` succeeds, and the
resulting `calculatedDeadline` is the end of the trigger day (day 10,
second 950399). -/
theorem C8_counterexample :
    ((create_deadline dbC8 10 3 TriggerEventType.MANUAL "m" 867600 none none ∅
        864000).2).map (fun dl => dl.calculated_deadline) = some 950399 := by
  decide

/-- Witness for C8 (amended) at concrete inputs. -/
theorem C8_witness :
    add_business_days 6 0 {7} = 6 ∧
    add_business_days 6 (-2) {7} = 6 ∧
    create_deadline dbC8 10 2 TriggerEventType.MANUAL "m" 867600 none none ∅
      864000 = (dbC8, none) ∧
    ∃ db' dl, create_deadline dbC8 10 3 TriggerEventType.MANUAL "m" 867600 none
        none ∅ 864000 = (db', some dl) ∧
      dl.calculated_deadline = endOfDay (dateOf 867600) :=
  C8_add_zero_and_negative_boundary 6 (-2) {7} (by decide) dbC8 10 2 3
    TriggerEventType.MANUAL "m" 867600 none none ∅ 864000 clauseZero clauseNeg
    (-3) (by decide) (by decide) (by decide) (by decide) (by decide) (by decide)

/-! ## Claim C7: waiving an already-waived deadline -/

/-- C7 (amended): waiving an already-`WAIVED` deadline does not return the
row unchanged — it overwrites `waivedAt`, `waivedBy`, `waiverReason` with
the new call's values, re-forces severity `LOW`, keeps status `WAIVED`, and
appends another audit entry. -/
theorem C7_rewaive_overwrites (db : DB) (did pid uid : Nat) (reason : String)
    (now : Nat) (d : ComplianceDeadline)
    (hfind : get_deadline_by_id db did pid = some d)
    (_hw : d.status = DeadlineStatus.WAIVED) :
    ∃ db' d', waive_deadline db did pid uid reason now = (db', some d') ∧
      d'.status = DeadlineStatus.WAIVED ∧ d'.waived_at = some now ∧
      d'.waived_by = some uid ∧ d'.waiver_reason = some reason ∧
      d'.severity = Severity.LOW ∧
      db'.audit_log.length = db.audit_log.length + 1 := by
  unfold waive_deadline
  rw [hfind]
  refine ⟨_, _, rfl, rfl, rfl, rfl, rfl, rfl, ?_⟩
  simp [DB.setDeadline]

/-- An already-waived deadline. -/
def dWaived : ComplianceDeadline :=
  { dRfix with
    id := 6
    status := DeadlineStatus.WAIVED
    waived_at := some 50
    waived_by := some 1
    waiver_reason := some "old"
    severity := Severity.LOW }

/-- A database holding the waived deadline. -/
def dbWaived : DB :=
  { clauses := [], deadlines := [dWaived], notices := [], audit_log := []
    notifications := [], users := [], next_id := 9 }

/-- Counterexample for C7 as stated: re-waiving overwrites the waiver fields
(`waivedAt` 50 → 100, `waivedBy` 1 → 2, `waiverReason` "old" → "new") and
appends a new audit entry, so the row is not returned unchanged. -/
theorem C7_counterexample :
    ((waive_deadline dbWaived 6 10 2 "new" 100).2).map
        (fun d => (d.waived_at, d.waived_by, d.waiver_reason)) =
      some (some 100, some 2, some "new") ∧
    (waive_deadline dbWaived 6 10 2 "new" 100).1.audit_log.length =
      dbWaived.audit_log.length + 1 ∧
    dWaived.waived_at = some 50 ∧ dWaived.waived_by = some 1 ∧
    dWaived.waiver_reason = some "old" := by
  decide

/-- Witness for C7 (amended) at concrete inputs. -/
theorem C7_witness :
    ∃ db' d', waive_deadline dbWaived 6 10 2 "new" 100 = (db', some d') ∧
      d'.status = DeadlineStatus.WAIVED ∧ d'.waived_at = some 100 ∧
      d'.waived_by = some 2 ∧ d'.waiver_reason = some "new" ∧
      d'.severity = Severity.LOW ∧
      db'.audit_log.length = dbWaived.audit_log.length + 1 :=
  C7_rewaive_overwrites dbWaived 6 10 2 "new" 100 dWaived (by decide) (by decide)

/-! ## Claim C1: `onTimeStatus` -/

/-- C1 (amended): `send_notice` freezes `onTimeStatus` at the transition
into SENT with value true iff `dueDate` is null or `sentAt ≤ dueDate`; but
the notices PATCH endpoint is a second writer: moving an editable notice
with no `acknowledgedAt` straight to ACKNOWLEDGED sets
`onTimeStatus = true` without any SENT transition, and a PATCH straight
into SENT leaves `onTimeStatus` untouched. -/
theorem C1_on_time_status (db : DB) (nid pid uid now : Nat) (sent : Bool)
    (n : ComplianceNotice)
    (hfind : get_notice_by_id db nid pid = some n)
    (hed : n.status ∈ editableStatuses)
    (hrc : truthyStr n.recipient_email = true)
    (dbP : DB) (nidP pidP uidP nowP : Nat) (nP : ComplianceNotice)
    (hfindP : get_notice_by_id dbP nidP pidP = some nP)
    (hedP : nP.status ∈ editableStatuses)
    (hackP : nP.acknowledged_at = none) :
    (∃ db' n', send_notice db nid pid uid now sent = Except.ok (some (db', n')) ∧
      n'.status = ComplianceNoticeStatus.SENT ∧ n'.sent_at = some now ∧
      n'.on_time_status =
        some (match n.due_date with | none => true | some dd => now ≤ dd)) ∧
    (∃ db₂ n₂, update_notice_endpoint dbP pidP nidP uidP
        ⟨none, none, none, none, some ComplianceNoticeStatus.ACKNOWLEDGED⟩ nowP =
        Except.ok (db₂, n₂) ∧
      n₂.on_time_status = some true ∧
      n₂.status = ComplianceNoticeStatus.ACKNOWLEDGED ∧ n₂.sent_at = nP.sent_at) ∧
    (∃ db₃ n₃, update_notice_endpoint dbP pidP nidP uidP
        ⟨none, none, none, none, some ComplianceNoticeStatus.SENT⟩ nowP =
        Except.ok (db₃, n₃) ∧
      n₃.on_time_status = nP.on_time_status ∧
      n₃.status = ComplianceNoticeStatus.SENT) := by
  have h1 : ¬ (n.status ∉ editableStatuses) := fun h => h hed
  have h2 : ¬ (truthyStr n.recipient_email = false) := by simp [hrc]
  have h1P : ¬ (nP.status ∉ editableStatuses) := fun h => h hedP
  refine ⟨?_, ?_, ?_⟩
  · simp only [send_notice, hfind, if_neg h1, if_neg h2]
    exact ⟨_, _, rfl, rfl, rfl, rfl⟩
  · simp only [update_notice_endpoint, update_notice, hfindP, if_neg h1P, hackP]
    exact ⟨_, _, rfl, rfl, rfl, rfl⟩
  · simp only [update_notice_endpoint, update_notice, hfindP, if_neg h1P]
    rw [if_neg (by simp)]
    exact ⟨_, _, rfl, rfl, rfl⟩

/-- A DRAFT notice with a recipient, no due date, never sent, never
acknowledged, `onTimeStatus` unset. -/
def nDraft : ComplianceNotice :=
  { id := 1, project_id := 10, type := ComplianceNoticeType.CLAIM_NOTICE
    status := ComplianceNoticeStatus.DRAFT, title := "t", content := "c"
    recipient_name := some "GC", recipient_email := some "gc@x.com"
    due_date := none, sent_at := none, acknowledged_at := none
    clause_id := none, delivery_methods := [], delivery_confirmation := []
    delivered_at := none, on_time_status := none, generated_by_ai := false
    ai_model := none, created_by_id := 2 }

/-- A database holding only the draft notice. -/
def dbNotice : DB :=
  { clauses := [], deadlines := [], notices := [nDraft], audit_log := []
    notifications := [], users := [], next_id := 20 }

/-- Counterexample for C1 as stated: PATCHing the DRAFT notice straight to
ACKNOWLEDGED sets `onTimeStatus = true` even though the notice never
transitioned into SENT — an operation other than the SENT transition sets
`onTimeStatus`. -/
theorem C1_counterexample :
    (update_notice_endpoint dbNotice 10 1 2
        ⟨none, none, none, none, some ComplianceNoticeStatus.ACKNOWLEDGED⟩
        20).toOption.map (fun r => (r.2.status, r.2.on_time_status, r.2.sent_at)) =
      some (ComplianceNoticeStatus.ACKNOWLEDGED, some true, none) ∧
    nDraft.on_time_status = none ∧
    nDraft.status = ComplianceNoticeStatus.DRAFT := by
  decide

/-- Witness for C1 (amended) at concrete inputs. -/
theorem C1_witness :
    (∃ db' n', send_notice dbNotice 1 10 2 20 true = Except.ok (some (db', n')) ∧
      n'.status = ComplianceNoticeStatus.SENT ∧ n'.sent_at = some 20 ∧
      n'.on_time_status =
        some (match nDraft.due_date with | none => true | some dd => 20 ≤ dd)) ∧
    (∃ db₂ n₂, update_notice_endpoint dbNotice 10 1 2
        ⟨none, none, none, none, some ComplianceNoticeStatus.ACKNOWLEDGED⟩ 20 =
        Except.ok (db₂, n₂) ∧
      n₂.on_time_status = some true ∧
      n₂.status = ComplianceNoticeStatus.ACKNOWLEDGED ∧ n₂.sent_at = nDraft.sent_at) ∧
    (∃ db₃ n₃, update_notice_endpoint dbNotice 10 1 2
        ⟨none, none, none, none, some ComplianceNoticeStatus.SENT⟩ 20 =
        Except.ok (db₃, n₃) ∧
      n₃.on_time_status = nDraft.on_time_status ∧
      n₃.status = ComplianceNoticeStatus.SENT) :=
  C1_on_time_status dbNotice 1 10 2 20 true nDraft (by decide) (by decide)
    (by decide) dbNotice 1 10 2 20 nDraft (by decide) (by decide) (by decide)

/-! ## Claim C6: deadline cascade on send -/

/-- C6 (amended): a successful send cascades the linked deadline (the
deadline carrying the notice's id) to `NOTICE_SENT` only when the notice
has a non-null `clauseId`; when `clauseId` is null the deadline lookup is
skipped and every deadline row is left unchanged. -/
theorem C6_cascade_requires_clause (db : DB) (nid pid uid now : Nat)
    (sent : Bool) (n : ComplianceNotice) (d : ComplianceDeadline)
    (hfind : get_notice_by_id db nid pid = some n)
    (hed : n.status ∈ editableStatuses)
    (hrc : truthyStr n.recipient_email = true)
    (hcl : n.clause_id.isSome = true)
    (hdl : db.deadlines.find?
      (fun x => x.notice_id = some n.id ∧ x.project_id = pid) = some d)
    (dbQ : DB) (nidQ pidQ uidQ nowQ : Nat) (sentQ : Bool) (nQ : ComplianceNotice)
    (hfindQ : get_notice_by_id dbQ nidQ pidQ = some nQ)
    (hedQ : nQ.status ∈ editableStatuses)
    (hrcQ : truthyStr nQ.recipient_email = true)
    (hclQ : nQ.clause_id = none) :
    (∃ db' n', send_notice db nid pid uid now sent = Except.ok (some (db', n')) ∧
      { d with status := DeadlineStatus.NOTICE_SENT } ∈ db'.deadlines) ∧
    (∃ db' n', send_notice dbQ nidQ pidQ uidQ nowQ sentQ =
        Except.ok (some (db', n')) ∧
      db'.deadlines = dbQ.deadlines) := by
  constructor
  · have h1 : ¬ (n.status ∉ editableStatuses) := fun h => h hed
    have h2 : ¬ (truthyStr n.recipient_email = false) := by simp [hrc]
    simp only [send_notice, hfind, if_neg h1, if_neg h2, DB.setNotice, hcl,
      if_true, hdl]
    refine ⟨_, _, rfl, ?_⟩
    have hmem : d ∈ db.deadlines := List.mem_of_find?_eq_some hdl
    have := List.mem_map_of_mem
      (f := fun x : ComplianceDeadline =>
        if x.id = d.id then { d with status := DeadlineStatus.NOTICE_SENT } else x)
      hmem
    simpa [DB.setDeadline] using this
  · have h1 : ¬ (nQ.status ∉ editableStatuses) := fun h => h hedQ
    have h2 : ¬ (truthyStr nQ.recipient_email = false) := by simp [hrcQ]
    simp only [send_notice, hfindQ, if_neg h1, if_neg h2, hclQ]
    exact ⟨_, _, rfl, rfl⟩

/-- A draft notice linked to a deadline but with no `clauseId`. -/
def nLinkedNoClause : ComplianceNotice :=
  { nDraft with id := 5 }

/-- The deadline linked to `nLinkedNoClause` (status `NOTICE_DRAFTED`). -/
def dLinkedNoClause : ComplianceDeadline :=
  { dRfix with
    id := 7
    notice_id := some 5
    status := DeadlineStatus.NOTICE_DRAFTED }

/-- Database for the no-clause send. -/
def dbLinkedNoClause : DB :=
  { clauses := [], deadlines := [dLinkedNoClause], notices := [nLinkedNoClause]
    audit_log := [], notifications := [], users := [], next_id := 30 }

/-- A draft notice linked to a deadline and carrying a `clauseId`. -/
def nLinkedClause : ComplianceNotice :=
  { nDraft with id := 6, clause_id := some 1 }

/-- The deadline linked to `nLinkedClause`. -/
def dLinkedClause : ComplianceDeadline :=
  { dRfix with
    id := 8
    notice_id := some 6
    status := DeadlineStatus.NOTICE_DRAFTED }

/-- Database for the with-clause send. -/
def dbLinkedClause : DB :=
  { clauses := [], deadlines := [dLinkedClause], notices := [nLinkedClause]
    audit_log := [], notifications := [], users := [], next_id := 31 }

/-- Counterexample for C6 as stated: the notice is linked to deadline 7
(the deadline carries `noticeId = 5`) and the send succeeds, yet the
deadline stays `NOTICE_DRAFTED` because the notice has no `clauseId`. -/
theorem C6_counterexample :
    ((send_notice dbLinkedNoClause 5 10 2 100 true).toOption.bind id).map
        (fun r => (r.2.status, r.1.deadlines.map (fun d => d.status))) =
      some (ComplianceNoticeStatus.SENT, [DeadlineStatus.NOTICE_DRAFTED]) ∧
    dLinkedNoClause.notice_id = some 5 := by
  decide

/-- Witness for C6 (amended) at concrete inputs. -/
theorem C6_witness :
    (∃ db' n', send_notice dbLinkedClause 6 10 2 100 true =
        Except.ok (some (db', n')) ∧
      { dLinkedClause with status := DeadlineStatus.NOTICE_SENT } ∈ db'.deadlines) ∧
    (∃ db' n', send_notice dbLinkedNoClause 5 10 2 100 true =
        Except.ok (some (db', n')) ∧
      db'.deadlines = dbLinkedNoClause.deadlines) :=
  C6_cascade_requires_clause dbLinkedClause 6 10 2 100 true nLinkedClause
    dLinkedClause (by decide) (by decide) (by decide) (by decide) (by decide)
    dbLinkedNoClause 5 10 2 100 true nLinkedNoClause (by decide) (by decide)
    (by decide) (by decide)

/-! ## Claim C2: audit coverage of state changes -/

theorem cronProject_audit (now : Nat) (db : DB) (pid : Nat) :
    (cronProject now db pid).audit_log = db.audit_log := rfl

theorem cron_foldl_audit (now : Nat) :
    ∀ (pids : List Nat) (db : DB),
      (pids.foldl (cronProject now) db).audit_log = db.audit_log := by
  intro pids
  induction pids with
  | nil => intro db; rfl
  | cons p ps ih =>
    intro db
    rw [List.foldl_cons, ih (cronProject now db p), cronProject_audit]

theorem run_severity_cron_audit (db : DB) (now : Nat) :
    (run_severity_cron db now).audit_log = db.audit_log := by
  unfold run_severity_cron
  exact cron_foldl_audit now _ db

theorem send_notice_audit (db : DB) (nid pid uid now : Nat) (sent : Bool)
    (n : ComplianceNotice)
    (hfind : get_notice_by_id db nid pid = some n)
    (hed : n.status ∈ editableStatuses)
    (hrc : truthyStr n.recipient_email = true) :
    ∃ db' n' a, send_notice db nid pid uid now sent = Except.ok (some (db', n')) ∧
      db'.audit_log = db.audit_log ++ [a] ∧
      a.entity_type = "ComplianceNotice" ∧ a.entity_id = nid := by
  have h1 : ¬ (n.status ∉ editableStatuses) := fun h => h hed
  have h2 : ¬ (truthyStr n.recipient_email = false) := by simp [hrc]
  simp only [send_notice, hfind, if_neg h1, if_neg h2]
  split
  · split <;> exact ⟨_, _, _, rfl, rfl, rfl, rfl⟩
  · exact ⟨_, _, _, rfl, rfl, rfl, rfl⟩

theorem create_notice_audit (db : DB) (pid : Nat) (nt : ComplianceNoticeType)
    (title content : String) (uid : Nat) (cid : Option Nat) (dd : Option Nat)
    (rn re : Option String) (did : Option Nat) (now : Nat) :
    ∃ a, (create_notice db pid nt title content uid cid dd rn re did now).1.audit_log =
        db.audit_log ++ [a] ∧
      a.entity_type = "ComplianceNotice" ∧
      a.entity_id = (create_notice db pid nt title content uid cid dd rn re did now).2.id := by
  unfold create_notice
  cases did with
  | none => exact ⟨_, rfl, rfl, rfl⟩
  | some d =>
    simp only []
    split <;> exact ⟨_, rfl, rfl, rfl⟩

/-- C2 (amended): deadline and notice state changes made through
`create_deadline`, `update_deadline_status`, `waive_deadline`,
`create_notice` and `send_notice` each append exactly one audit entry with
matching `entityId`/`entityType` in the same transaction; but severity
recalculation (`recalculate_severities`) and the scheduler's hourly pass
(including auto-expiry) append none, and notice field edits
(`update_notice`) append none. -/
theorem C2_audit_per_operation
    (dbA : DB) (pidA cidA : Nat) (tetA : TriggerEventType) (descA : String)
    (tA : Nat) (teidA tbA : Option Nat) (HA : Finset Nat) (nowA : Nat)
    (clauseA : ContractClause) (kA : Int) (dtA : DeadlineType)
    (hfindA : dbA.clauses.find? (fun c => c.id = cidA ∧ c.project_id = pidA) =
      some clauseA)
    (hddA : clauseA.deadline_days = some kA) (hkA : kA ≠ 0)
    (hdtA : clauseA.deadline_type = some dtA)
    (dbB : DB) (didB pidB : Nat) (stB : DeadlineStatus) (uidB nidB : Option Nat)
    (nowB : Nat) (dB : ComplianceDeadline)
    (hfindB : get_deadline_by_id dbB didB pidB = some dB)
    (dbC : DB) (didC pidC uidC : Nat) (rC : String) (nowC : Nat)
    (dC2 : ComplianceDeadline)
    (hfindC : get_deadline_by_id dbC didC pidC = some dC2)
    (dbD : DB) (pidD nowD : Nat) (dbE : DB) (nowE : Nat)
    (dbS : DB) (nidS pidS uidS nowS : Nat) (sentS : Bool) (nS : ComplianceNotice)
    (hfindS : get_notice_by_id dbS nidS pidS = some nS)
    (hedS : nS.status ∈ editableStatuses)
    (hrcS : truthyStr nS.recipient_email = true)
    (dbN : DB) (pidN : Nat) (ntN : ComplianceNoticeType) (tiN coN : String)
    (uidN : Nat) (cidN : Option Nat) (ddN : Option Nat) (rnN reN : Option String)
    (didN : Option Nat) (nowN : Nat)
    (dbF : DB) (nidF pidF uidF : Nat) (tF cF rnF reF : Option String)
    (ddF : Option Nat) (nF : ComplianceNotice)
    (hfindF : get_notice_by_id dbF nidF pidF = some nF)
    (hedF : nF.status ∈ editableStatuses) :
    (∃ db' dl a, create_deadline dbA pidA cidA tetA descA tA teidA tbA HA nowA =
        (db', some dl) ∧
      db'.audit_log = dbA.audit_log ++ [a] ∧
      a.entity_type = "ComplianceDeadline" ∧ a.entity_id = dl.id) ∧
    (∃ db' d' a, update_deadline_status dbB didB pidB stB uidB nidB nowB =
        (db', some d') ∧
      db'.audit_log = dbB.audit_log ++ [a] ∧
      a.entity_type = "ComplianceDeadline" ∧ a.entity_id = didB) ∧
    (∃ db' d' a, waive_deadline dbC didC pidC uidC rC nowC = (db', some d') ∧
      db'.audit_log = dbC.audit_log ++ [a] ∧
      a.entity_type = "ComplianceDeadline" ∧ a.entity_id = didC) ∧
    (∃ db' n' a, send_notice dbS nidS pidS uidS nowS sentS =
        Except.ok (some (db', n')) ∧
      db'.audit_log = dbS.audit_log ++ [a] ∧
      a.entity_type = "ComplianceNotice" ∧ a.entity_id = nidS) ∧
    (∃ a, (create_notice dbN pidN ntN tiN coN uidN cidN ddN rnN reN didN
        nowN).1.audit_log = dbN.audit_log ++ [a] ∧
      a.entity_type = "ComplianceNotice" ∧
      a.entity_id = (create_notice dbN pidN ntN tiN coN uidN cidN ddN rnN reN
        didN nowN).2.id) ∧
    ((recalculate_severities dbD pidD nowD).1.audit_log = dbD.audit_log) ∧
    ((run_severity_cron dbE nowE).audit_log = dbE.audit_log) ∧
    (∃ db' n', update_notice dbF nidF pidF uidF tF cF rnF reF ddF =
        Except.ok (some (db', n')) ∧
      db'.audit_log = dbF.audit_log) := by
  refine ⟨?_, ?_, ?_, ?_, ?_, rfl, run_severity_cron_audit dbE nowE, ?_⟩
  · obtain ⟨dl, a, heq, _, _, _, _, _, _, _, _, hty, hid, _⟩ :=
      create_deadline_some dbA pidA cidA tetA descA tA teidA tbA HA nowA
        clauseA kA dtA hfindA hddA hkA hdtA
    exact ⟨_, dl, a, heq, rfl, hty, hid⟩
  · unfold update_deadline_status
    rw [hfindB]
    exact ⟨_, _, _, rfl, rfl, rfl, rfl⟩
  · unfold waive_deadline
    rw [hfindC]
    exact ⟨_, _, _, rfl, rfl, rfl, rfl⟩
  · exact send_notice_audit dbS nidS pidS uidS nowS sentS nS hfindS hedS hrcS
  · exact create_notice_audit dbN pidN ntN tiN coN uidN cidN ddN rnN reN didN nowN
  · have h1F : ¬ (nF.status ∉ editableStatuses) := fun h => h hedF
    simp only [update_notice, hfindF, if_neg h1F]
    exact ⟨_, _, rfl, rfl⟩

/-- An ACTIVE deadline already past due but still marked `LOW`. -/
def dExpiring : ComplianceDeadline :=
  { dRfix with id := 9, calculated_deadline := 100 }

/-- Database whose only deadline is past due. -/
def dbExpiring : DB :=
  { clauses := [], deadlines := [dExpiring], notices := [], audit_log := []
    notifications := [], users := [], next_id := 40 }

/-- Counterexample for C2 as stated: the severity recalculation changes the
deadline's state (severity LOW → EXPIRED and status ACTIVE → EXPIRED) yet
appends no audit entry at all, so not every state change produces exactly
one audit entry. -/
theorem C2_counterexample :
    ((recalculate_severities dbExpiring 10 200).1.deadlines.map
        (fun d => (d.status, d.severity))) =
      [(DeadlineStatus.EXPIRED, Severity.EXPIRED)] ∧
    dExpiring.status = DeadlineStatus.ACTIVE ∧
    dExpiring.severity = Severity.LOW ∧
    (recalculate_severities dbExpiring 10 200).1.audit_log = dbExpiring.audit_log := by
  decide

/-- Witness for C2 (amended) at concrete inputs. -/
theorem C2_witness :
    (∃ db' dl a, create_deadline dbBiz 10 1 TriggerEventType.MANUAL "m" 867600
        none none ∅ 864000 = (db', some dl) ∧
      db'.audit_log = dbBiz.audit_log ++ [a] ∧
      a.entity_type = "ComplianceDeadline" ∧ a.entity_id = dl.id) ∧
    (∃ db' d' a, update_deadline_status dbTrig 2 10 DeadlineStatus.COMPLETED
        none none 0 = (db', some d') ∧
      db'.audit_log = dbTrig.audit_log ++ [a] ∧
      a.entity_type = "ComplianceDeadline" ∧ a.entity_id = 2) ∧
    (∃ db' d' a, waive_deadline dbWaived 6 10 2 "again" 100 = (db', some d') ∧
      db'.audit_log = dbWaived.audit_log ++ [a] ∧
      a.entity_type = "ComplianceDeadline" ∧ a.entity_id = 6) ∧
    (∃ db' n' a, send_notice dbNotice 1 10 2 20 true =
        Except.ok (some (db', n')) ∧
      db'.audit_log = dbNotice.audit_log ++ [a] ∧
      a.entity_type = "ComplianceNotice" ∧ a.entity_id = 1) ∧
    (∃ a, (create_notice dbNotice 10 ComplianceNoticeType.CLAIM_NOTICE "t2" "c2"
        2 none none none none none 5).1.audit_log = dbNotice.audit_log ++ [a] ∧
      a.entity_type = "ComplianceNotice" ∧
      a.entity_id = (create_notice dbNotice 10 ComplianceNoticeType.CLAIM_NOTICE
        "t2" "c2" 2 none none none none none 5).2.id) ∧
    ((recalculate_severities dbTrig 10 0).1.audit_log = dbTrig.audit_log) ∧
    ((run_severity_cron dbTrig 0).audit_log = dbTrig.audit_log) ∧
    (∃ db' n', update_notice dbNotice 1 10 2 none none none none none =
        Except.ok (some (db', n')) ∧
      db'.audit_log = dbNotice.audit_log) :=
  C2_audit_per_operation dbBiz 10 1 TriggerEventType.MANUAL "m" 867600 none none
    ∅ 864000 clauseBiz 3 DeadlineType.BUSINESS_DAYS (by decide) (by decide)
    (by decide) (by decide) dbTrig 2 10 DeadlineStatus.COMPLETED none none 0
    dRfix (by decide) dbWaived 6 10 2 "again" 100 dWaived (by decide) dbTrig 10
    0 dbTrig 0 dbNotice 1 10 2 20 true nDraft (by decide) (by decide)
    (by decide) dbNotice 10 ComplianceNoticeType.CLAIM_NOTICE "t2" "c2" 2 none
    none none none none 5 dbNotice 1 10 2 none none none none none nDraft
    (by decide) (by decide)

/-! ## Claim C9: the score chain -/

theorem calculate_streak_le (notices : List ComplianceNotice) :
    calculate_streak notices ≤
      notices.countP (fun n => n.on_time_status = some true) := by
  unfold calculate_streak
  by_cases h : notices = []
  · simp [h]
  · rw [if_neg h]
    have key : ∀ (L : List ComplianceNotice),
        (L.takeWhile (fun n => n.on_time_status = some true)).length ≤
          L.countP (fun n => n.on_time_status = some true) := by
      intro L
      have hall : ∀ a ∈ L.takeWhile (fun n : ComplianceNotice =>
          decide (n.on_time_status = some true)),
          decide (a.on_time_status = some true) = true := by
        intro a ha
        exact @List.mem_takeWhile_imp ComplianceNotice
          (fun n : ComplianceNotice => decide (n.on_time_status = some true)) L a ha
      calc (L.takeWhile (fun n : ComplianceNotice =>
              decide (n.on_time_status = some true))).length
          = (L.takeWhile (fun n : ComplianceNotice =>
              decide (n.on_time_status = some true))).countP
              (fun n : ComplianceNotice => decide (n.on_time_status = some true)) :=
            (List.countP_eq_length.mpr hall).symm
        _ ≤ L.countP (fun n : ComplianceNotice =>
              decide (n.on_time_status = some true)) :=
            (List.takeWhile_prefix _).sublist.countP_le _
    refine le_trans (key _) ?_
    calc (List.insertionSort (fun a b => sentKey b ≤ sentKey a)
            (notices.filter (fun n => n.sent_at ≠ none))).countP
            (fun n => n.on_time_status = some true)
        = (notices.filter (fun n => n.sent_at ≠ none)).countP
            (fun n => n.on_time_status = some true) :=
          (List.perm_insertionSort _ _).countP_eq _
      _ ≤ notices.countP (fun n => n.on_time_status = some true) :=
          (List.filter_sublist _).countP_le _

/-- The chain invariant of C9. -/
def scoreChainInv (r : ComplianceScore) : Prop :=
  r.current_streak ≤ r.best_streak ∧ r.best_streak ≤ r.on_time_count ∧
  r.on_time_count ≤ r.total_count

theorem calculate_score_step (prev : Option ComplianceScore) (pid : Nat)
    (ns : List ComplianceNotice) (ds : List ComplianceDeadline) (t : Nat)
    (hprev : ∀ r₀, prev = some r₀ → scoreChainInv r₀ ∧
      r₀.on_time_count ≤ ns.countP (fun n => n.on_time_status = some true)) :
    scoreChainInv (calculate_score prev pid ns ds t) ∧
    (calculate_score prev pid ns ds t).on_time_count =
      ns.countP (fun n => n.on_time_status = some true) := by
  cases prev with
  | none =>
    exact ⟨⟨le_refl _, calculate_streak_le ns, List.countP_le_length _⟩, rfl⟩
  | some r₀ =>
    obtain ⟨⟨_, hb, _⟩, hle⟩ := hprev r₀ rfl
    refine ⟨⟨le_max_right _ _, max_le (le_trans hb hle) (calculate_streak_le ns),
      List.countP_le_length _⟩, rfl⟩

theorem runScoring_inv (pid : Nat) :
    ∀ (steps : List ScoringInput) (prev : Option ComplianceScore),
      noticesPreserved steps →
      (∀ r₀, prev = some r₀ → scoreChainInv r₀ ∧
        ∀ s, steps.head? = some s →
          r₀.on_time_count ≤ s.notices.countP (fun n => n.on_time_status = some true)) →
      ∀ r, runScoring pid prev steps = some r → scoreChainInv r := by
  intro steps
  induction steps with
  | nil =>
    intro prev _ hprev r hr
    cases prev with
    | none => simp [runScoring] at hr
    | some r₀ =>
      have heq : r₀ = r := by simpa [runScoring] using hr
      exact heq ▸ (hprev r₀ rfl).1
  | cons s rest ih =>
    intro prev hchain hprev r hr
    rw [runScoring] at hr
    have hstep := calculate_score_step prev pid s.notices s.deadlines s.now
      (fun r₀ h => ⟨(hprev r₀ h).1, (hprev r₀ h).2 s rfl⟩)
    have hchain' : noticesPreserved rest := by
      cases rest with
      | nil => exact List.chain'_nil
      | cons s' rest' => exact (List.chain'_cons.mp hchain).2
    refine ih (some (calculate_score prev pid s.notices s.deadlines s.now))
      hchain' ?_ r hr
    intro r₁ h1
    have h1' : calculate_score prev pid s.notices s.deadlines s.now = r₁ :=
      Option.some.inj h1
    subst h1'
    refine ⟨hstep.1, ?_⟩
    intro s' hs'
    cases rest with
    | nil => simp at hs'
    | cons s2 rest2 =>
      have hs2 : s2 = s' := by simpa using hs'
      subst hs2
      have hrel : s.notices.Sublist s2.notices := (List.chain'_cons.mp hchain).1
      rw [hstep.2]
      exact hrel.countP_le _

/-- C9: for every compliance score record produced by repeated score
calculation — given that sent notices are never deleted and `onTimeStatus`
is never unset (each calculation's SENT/ACKNOWLEDGED notice rows include
the previous calculation's) — the chain
`currentStreak ≤ bestStreak ≤ onTimeCount ≤ totalCount` holds. -/
theorem C9_score_chain (pid : Nat) (steps : List ScoringInput)
    (hpres : noticesPreserved steps) (r : ComplianceScore)
    (hr : runScoring pid none steps = some r) :
    r.current_streak ≤ r.best_streak ∧ r.best_streak ≤ r.on_time_count ∧
    r.on_time_count ≤ r.total_count :=
  runScoring_inv pid steps none hpres (fun _ h => nomatch h) r hr

/-- Witness for C9 at a concrete one-step trace. -/
theorem C9_witness :
    noticesPreserved [⟨[], [], 0⟩] ∧
    ((calculate_score none 10 [] [] 0).current_streak ≤
        (calculate_score none 10 [] [] 0).best_streak ∧
      (calculate_score none 10 [] [] 0).best_streak ≤
        (calculate_score none 10 [] [] 0).on_time_count ∧
      (calculate_score none 10 [] [] 0).on_time_count ≤
        (calculate_score none 10 [] [] 0).total_count) :=
  ⟨by simp [noticesPreserved], C9_score_chain 10 [⟨[], [], 0⟩]
    (by simp [noticesPreserved]) _ rfl⟩

/-! ## Claim C5: the hourly severity pass run twice -/

theorem cronUpdateDeadline_project (now : Nat) (d : ComplianceDeadline) :
    (cronUpdateDeadline now d).project_id = d.project_id := by
  unfold cronUpdateDeadline
  by_cases hs : d.severity = cronClassify now d <;> simp [hs]

theorem cronUpdateDeadline_calculated (now : Nat) (d : ComplianceDeadline) :
    (cronUpdateDeadline now d).calculated_deadline = d.calculated_deadline := by
  unfold cronUpdateDeadline
  by_cases hs : d.severity = cronClassify now d <;> simp [hs]

theorem cronClassify_congr (now : Nat) (d d' : ComplianceDeadline)
    (h : d'.calculated_deadline = d.calculated_deadline) :
    cronClassify now d' = cronClassify now d := by
  unfold cronClassify
  rw [h]

theorem cronUpdateDeadline_severity (now : Nat) (d : ComplianceDeadline) :
    (cronUpdateDeadline now d).severity = cronClassify now d := by
  unfold cronUpdateDeadline
  by_cases hs : d.severity = cronClassify now d
  · simp [hs]
  · simp [hs]

theorem cronUpdateDeadline_fix (now : Nat) (x : ComplianceDeadline)
    (h : x.severity = cronClassify now x) : cronUpdateDeadline now x = x := by
  unfold cronUpdateDeadline
  simp [h]

theorem cronUpdateDeadline_idem (now : Nat) (d : ComplianceDeadline) :
    cronUpdateDeadline now (cronUpdateDeadline now d) = cronUpdateDeadline now d := by
  apply cronUpdateDeadline_fix
  rw [cronUpdateDeadline_severity,
    cronClassify_congr now d _ (cronUpdateDeadline_calculated now d)]

theorem cron_foldl_deadlines (now : Nat) :
    ∀ (pids : List Nat) (db : DB), pids.Nodup →
      (pids.foldl (cronProject now) db).deadlines =
        db.deadlines.map (fun d =>
          if d.project_id ∈ pids ∧ d.status ∈ activeStatuses then
            cronUpdateDeadline now d
          else d) := by
  intro pids
  induction pids with
  | nil =>
    intro db _
    simp
  | cons p ps ih =>
    intro db hnd
    have hpnotin : p ∉ ps := (List.nodup_cons.mp hnd).1
    rw [List.foldl_cons, ih _ (List.nodup_cons.mp hnd).2]
    have hproj : (cronProject now db p).deadlines =
        db.deadlines.map (fun d =>
          if d.project_id = p ∧ d.status ∈ activeStatuses then
            cronUpdateDeadline now d
          else d) := rfl
    rw [hproj, List.map_map]
    apply List.map_congr_left
    intro d _
    simp only [Function.comp_apply]
    by_cases hp : d.project_id = p
    · by_cases ha : d.status ∈ activeStatuses
      · have hinner : (if d.project_id = p ∧ d.status ∈ activeStatuses then
            cronUpdateDeadline now d else d) = cronUpdateDeadline now d :=
          if_pos ⟨hp, ha⟩
        have h1 : ¬ ((cronUpdateDeadline now d).project_id ∈ ps ∧
            (cronUpdateDeadline now d).status ∈ activeStatuses) := by
          intro hc
          rw [cronUpdateDeadline_project, hp] at hc
          exact hpnotin hc.1
        rw [hinner, if_neg h1,
          if_pos ⟨by rw [hp]; exact List.mem_cons_self p ps, ha⟩]
      · have hinner : (if d.project_id = p ∧ d.status ∈ activeStatuses then
            cronUpdateDeadline now d else d) = d := if_neg (fun hc => ha hc.2)
        rw [hinner, if_neg (fun hc => ha hc.2), if_neg (fun hc => ha hc.2)]
    · have hinner : (if d.project_id = p ∧ d.status ∈ activeStatuses then
          cronUpdateDeadline now d else d) = d := if_neg (fun hc => hp hc.1)
      rw [hinner]
      by_cases hps : d.project_id ∈ ps ∧ d.status ∈ activeStatuses
      · rw [if_pos hps, if_pos ⟨List.mem_cons_of_mem p hps.1, hps.2⟩]
      · rw [if_neg hps,
          if_neg (fun hc => hps ⟨(List.mem_cons.mp hc.1).resolve_left hp, hc.2⟩)]

theorem cron_foldl_clauses (now : Nat) :
    ∀ (pids : List Nat) (db : DB),
      (pids.foldl (cronProject now) db).clauses = db.clauses := by
  intro pids
  induction pids with
  | nil => intro db; rfl
  | cons p ps ih => intro db; rw [List.foldl_cons, ih (cronProject now db p)]; rfl

theorem cron_foldl_users (now : Nat) :
    ∀ (pids : List Nat) (db : DB),
      (pids.foldl (cronProject now) db).users = db.users := by
  intro pids
  induction pids with
  | nil => intro db; rfl
  | cons p ps ih => intro db; rw [List.foldl_cons, ih (cronProject now db p)]; rfl

theorem cron_foldl_notices (now : Nat) :
    ∀ (pids : List Nat) (db : DB),
      (pids.foldl (cronProject now) db).notices = db.notices := by
  intro pids
  induction pids with
  | nil => intro db; rfl
  | cons p ps ih => intro db; rw [List.foldl_cons, ih (cronProject now db p)]; rfl

theorem cron_foldl_next_id (now : Nat) :
    ∀ (pids : List Nat) (db : DB),
      (pids.foldl (cronProject now) db).next_id = db.next_id := by
  intro pids
  induction pids with
  | nil => intro db; rfl
  | cons p ps ih => intro db; rw [List.foldl_cons, ih (cronProject now db p)]; rfl

/-- After one severity pass, every deadline still in an active status is at
the cron's severity fixed point. -/
theorem run_severity_cron_fixpoint (db : DB) (now : Nat) :
    ∀ d ∈ (run_severity_cron db now).deadlines, d.status ∈ activeStatuses →
      cronUpdateDeadline now d = d := by
  unfold run_severity_cron
  rw [cron_foldl_deadlines now _ db (List.nodup_dedup _)]
  intro d hd hact
  obtain ⟨d₀, hd₀, heq⟩ := List.mem_map.mp hd
  by_cases hcond : d₀.project_id ∈
      ((db.deadlines.filter (fun d => d.status ∈ activeStatuses)).map
        (fun d => d.project_id)).dedup ∧ d₀.status ∈ activeStatuses
  · rw [if_pos hcond] at heq
    rw [← heq]
    exact cronUpdateDeadline_idem now d₀
  · rw [if_neg hcond] at heq
    rw [← heq] at hact ⊢
    rcases Decidable.not_and_iff_or_not.mp hcond with hnp | hna
    · exfalso
      apply hnp
      exact List.mem_dedup.mpr (List.mem_map.mpr
        ⟨d₀, List.mem_filter.mpr ⟨hd₀, by simpa using hact⟩, rfl⟩)
    · exact absurd hact (by simpa using hna)

/-- The notifications one full severity pass appends when every active
deadline is already at its severity fixed point. -/
def cronPassNotifications (db : DB) (now : Nat) : List Notification :=
  (((db.deadlines.filter (fun d => d.status ∈ activeStatuses)).map
    (fun d => d.project_id)).dedup).flatMap (fun pid =>
      (db.deadlines.filter
        (fun d => d.project_id = pid ∧ d.status ∈ activeStatuses)).flatMap
        (cronNotifications db.clauses db.users now))

theorem cron_foldl_under_fixpoint (now : Nat) :
    ∀ (pids : List Nat) (db : DB),
      (∀ d ∈ db.deadlines, d.status ∈ activeStatuses →
        cronUpdateDeadline now d = d) →
      (pids.foldl (cronProject now) db).deadlines = db.deadlines ∧
      (pids.foldl (cronProject now) db).notifications =
        db.notifications ++ pids.flatMap (fun pid =>
          (db.deadlines.filter
            (fun d => d.project_id = pid ∧ d.status ∈ activeStatuses)).flatMap
            (cronNotifications db.clauses db.users now)) := by
  intro pids
  induction pids with
  | nil =>
    intro db _
    exact ⟨rfl, by simp⟩
  | cons p ps ih =>
    intro db hfix
    have hstep_dead : (cronProject now db p).deadlines = db.deadlines := by
      show db.deadlines.map (fun d =>
        if d.project_id = p ∧ d.status ∈ activeStatuses then
          cronUpdateDeadline now d else d) = db.deadlines
      calc db.deadlines.map (fun d =>
            if d.project_id = p ∧ d.status ∈ activeStatuses then
              cronUpdateDeadline now d else d)
          = db.deadlines.map id := by
            apply List.map_congr_left
            intro d hd
            by_cases hc : d.project_id = p ∧ d.status ∈ activeStatuses
            · rw [if_pos hc]; exact hfix d hd hc.2
            · rw [if_neg hc]; rfl
        _ = db.deadlines := List.map_id _
    have hfix' : ∀ d ∈ (cronProject now db p).deadlines,
        d.status ∈ activeStatuses → cronUpdateDeadline now d = d := by
      rw [hstep_dead]; exact hfix
    obtain ⟨ihd, ihn⟩ := ih (cronProject now db p) hfix'
    constructor
    · rw [List.foldl_cons, ihd, hstep_dead]
    · rw [List.foldl_cons, ihn]
      have hcl : (cronProject now db p).clauses = db.clauses := rfl
      have hus : (cronProject now db p).users = db.users := rfl
      have hnt : (cronProject now db p).notifications =
          db.notifications ++ (db.deadlines.filter
            (fun d => d.project_id = p ∧ d.status ∈ activeStatuses)).flatMap
            (cronNotifications db.clauses db.users now) := rfl
      rw [hstep_dead, hcl, hus, hnt, List.flatMap_cons, List.append_assoc]

/-- C5 (amended): running the hourly severity pass a second time with no
intervening time change writes zero audit entries and changes no deadline
(nor any clause, notice, user, or id state) — but it is not a full no-op:
it appends a fresh in-app notification per eligible user for every deadline
still in an active status whose (unchanged) severity classification is
CRITICAL, WARNING or EXPIRED, exactly `cronPassNotifications` of the
once-passed state. -/
theorem C5_second_pass_only_renotifies (db : DB) (now : Nat) :
    (run_severity_cron (run_severity_cron db now) now).deadlines =
      (run_severity_cron db now).deadlines ∧
    (run_severity_cron (run_severity_cron db now) now).audit_log =
      (run_severity_cron db now).audit_log ∧
    (run_severity_cron (run_severity_cron db now) now).clauses =
      (run_severity_cron db now).clauses ∧
    (run_severity_cron (run_severity_cron db now) now).notices =
      (run_severity_cron db now).notices ∧
    (run_severity_cron (run_severity_cron db now) now).users =
      (run_severity_cron db now).users ∧
    (run_severity_cron (run_severity_cron db now) now).next_id =
      (run_severity_cron db now).next_id ∧
    (run_severity_cron (run_severity_cron db now) now).notifications =
      (run_severity_cron db now).notifications ++
        cronPassNotifications (run_severity_cron db now) now := by
  have hfix := run_severity_cron_fixpoint db now
  obtain ⟨hd, hn⟩ := cron_foldl_under_fixpoint now
    ((((run_severity_cron db now).deadlines.filter
      (fun d => d.status ∈ activeStatuses)).map (fun d => d.project_id)).dedup)
    (run_severity_cron db now) hfix
  refine ⟨hd, run_severity_cron_audit _ now, cron_foldl_clauses now _ _,
    cron_foldl_notices now _ _, cron_foldl_users now _ _,
    cron_foldl_next_id now _ _, hn⟩

/-- An eligible (admin) user. -/
def uAdmin : User := { id := 1, role := UserRole.ADMIN, email := "a@x", name := "A" }

/-- An ACTIVE deadline whose severity is already CRITICAL and due within
three days of `now = 0`. -/
def dCrit : ComplianceDeadline :=
  { dRfix with
    id := 11
    calculated_deadline := 1000
    severity := Severity.CRITICAL }

/-- Database for the cron counterexample. -/
def dbCron : DB :=
  { clauses := [], deadlines := [dCrit], notices := [], audit_log := []
    notifications := [], users := [uAdmin], next_id := 50 }

/-- Counterexample for C5 as stated: the first pass changes no deadline
(severity is already CRITICAL) yet emits one alert notification, and the
second pass at the same instant emits another — the second run creates new
records and so is not a no-op. -/
theorem C5_counterexample :
    (run_severity_cron dbCron 0).notifications.length = 1 ∧
    (run_severity_cron (run_severity_cron dbCron 0) 0).notifications.length = 2 ∧
    (run_severity_cron (run_severity_cron dbCron 0) 0).notifications ≠
      (run_severity_cron dbCron 0).notifications := by
  decide
